import Mathlib

/-!
Verification of the Modbus RTU industrial server
(`modbus_industrial_server.py`, class `ModbusIndustrialServer`).

The Python source is shallowly embedded: `dict`s become association lists
(`dictLookup` / `dictInsert` replicate lookup and in-place update), `bytes`
values become `List Nat` whose elements are below 256, and the statistics
and slave registry become explicit record types.  Every handler of the
request dispatcher `_process_request` is translated as a pure function
that returns the optional success response, the updated slave, and the
list of frames written directly to the serial port (exception responses).
-/

set_option maxRecDepth 4000

/-- Lookup in a Python-dict model: the first binding of the key wins. -/
def dictLookup {α : Type} (d : List (Nat × α)) (k : Nat) : Option α :=
  match d with
  | [] => none
  | (k', v) :: rest => if k' = k then some v else dictLookup rest k

/-- Python `d[k] = v`: replace the binding if the key is present, else append. -/
def dictInsert {α : Type} (d : List (Nat × α)) (k : Nat) (v : α) : List (Nat × α) :=
  match d with
  | [] => [(k, v)]
  | (k', v') :: rest => if k' = k then (k, v) :: rest else (k', v') :: dictInsert rest k v

/-- `SlaveConfig` dataclass: one emulated slave device with its five sub-stores. -/
structure SlaveConfig where
  slave_id : Nat
  name : String
  description : String
  holding_registers : List (Nat × Nat)
  input_registers : List (Nat × Nat)
  coils : List (Nat × Bool)
  discrete_inputs : List (Nat × Bool)
  file_records : List (Nat × List (Nat × List Nat))
deriving DecidableEq

/-- `ConnectionStats` dataclass: per-slave counters. -/
structure ConnectionStats where
  total_requests : Nat := 0
  successful_requests : Nat := 0
  failed_requests : Nat := 0
  last_request_time : Nat := 0
  connection_uptime : Nat := 0
  bytes_sent : Nat := 0
  bytes_received : Nat := 0
deriving DecidableEq

/-- The mutable server state touched by `add_slave` and `_process_request`:
the slave registry, the statistics registry, and the configured ceiling
`config.server.max_slaves` (default 10). -/
structure ServerState where
  slaves : List (Nat × SlaveConfig)
  stats : List (Nat × ConnectionStats)
  max_slaves : Nat := 10
deriving DecidableEq

/-- One pass of the inner `for _ in range(8)` loop of `_calculate_crc`:
shift right once, folding in the polynomial 0xA001 when the low bit was set. -/
def crc_shift (crc : Nat) : Nat :=
  if crc &&& 0x0001 ≠ 0 then (crc >>> 1) ^^^ 0xA001 else crc >>> 1

/-- The 16-bit CRC accumulator of `_calculate_crc` after consuming `data`:
start from 0xFFFF, xor each byte in, then run the bit loop eight times. -/
def calculate_crc_word (data : List Nat) : Nat :=
  data.foldl (fun crc byte => crc_shift^[8] (crc ^^^ byte)) 0xFFFF

/-- `_calculate_crc`: the CRC accumulator serialized little-endian by
`crc.to_bytes(2, 'little')`, low byte first. -/
def calculate_crc (data : List Nat) : List Nat :=
  let crc := calculate_crc_word data
  [crc % 256, crc / 256 % 256]

/-- `_validate_crc`: frames shorter than 3 bytes are invalid; otherwise the
trailing two bytes (`data[-2:]`) must equal the CRC of the rest (`data[:-2]`). -/
def validate_crc (data : List Nat) : Bool :=
  if data.length < 3 then false
  else
    let received_crc := data.drop (data.length - 2)
    let calculated_crc := calculate_crc (data.take (data.length - 2))
    received_crc == calculated_crc

/-- Modelled from the spec: one bit step of the CRC-16 pseudocode of §4.1
(`if crc & 1: crc = (crc >> 1) XOR 0xA001 else: crc = crc >> 1`),
written with `testBit` and division to keep it independent of the source. -/
def crc16_spec_bit (c : Nat) : Nat :=
  if c.testBit 0 then (c / 2) ^^^ 0xA001 else c / 2

/-- Modelled from the spec: the full CRC-16 of §4.1 — polynomial 0xA001,
initial value 0xFFFF, no final XOR, eight bit steps per input byte. -/
def crc16_spec (data : List Nat) : Nat :=
  data.foldl (fun c b => crc16_spec_bit^[8] (c ^^^ b)) 0xFFFF

theorem crc_shift_eq_spec_bit : crc_shift = crc16_spec_bit := by
  funext c
  simp only [crc_shift, crc16_spec_bit, Nat.shiftRight_eq_div_pow, pow_one,
    Nat.and_one_is_mod]
  rcases Nat.mod_two_eq_zero_or_one c with h | h <;> simp [h, Nat.testBit_zero]

theorem calculate_crc_word_eq_spec (data : List Nat) :
    calculate_crc_word data = crc16_spec data := by
  simp [calculate_crc_word, crc16_spec, crc_shift_eq_spec_bit]

theorem and_255_eq_mod (x : Nat) : x &&& 0xFF = x % 256 := by
  have h := Nat.and_pow_two_sub_one_eq_mod x 8
  norm_num at h
  exact h

theorem shiftRight_8_eq_div (x : Nat) : x >>> 8 = x / 256 := by
  have h := Nat.shiftRight_eq_div_pow x 8
  norm_num at h
  exact h

/-- Claim C2. `_calculate_crc` emits exactly the two bytes
`[crc &&& 0xFF, (crc >>> 8) &&& 0xFF]` of the spec's CRC-16 (polynomial
0xA001, initial value 0xFFFF, no final XOR), low byte first; and for every
frame of at least 3 bytes, `_validate_crc` accepts iff the last two bytes
equal `_calculate_crc` of all bytes except the last two. -/
theorem crc_codec_correct :
    (∀ data : List Nat,
      calculate_crc data = [crc16_spec data &&& 0xFF, (crc16_spec data >>> 8) &&& 0xFF]) ∧
    (∀ frame : List Nat, 3 ≤ frame.length →
      (validate_crc frame = true ↔
        frame.drop (frame.length - 2) = calculate_crc (frame.take (frame.length - 2)))) := by
  constructor
  · intro data
    simp [calculate_crc, calculate_crc_word_eq_spec, and_255_eq_mod, shiftRight_8_eq_div]
  · intro frame hlen
    have hnot : ¬ frame.length < 3 := by omega
    simp [validate_crc, hnot]

/-- Witness for `crc_codec_correct` at the concrete frame
`[1, 3, 0, 0, 0, 1]` with its genuine CRC `[0x84, 0x0A]` appended. -/
theorem crc_codec_correct_witness :
    3 ≤ ([1, 3, 0, 0, 0, 1, 0x84, 0x0A] : List Nat).length ∧
    (validate_crc [1, 3, 0, 0, 0, 1, 0x84, 0x0A] = true ↔
      ([1, 3, 0, 0, 0, 1, 0x84, 0x0A] : List Nat).drop
          (([1, 3, 0, 0, 0, 1, 0x84, 0x0A] : List Nat).length - 2) =
        calculate_crc (([1, 3, 0, 0, 0, 1, 0x84, 0x0A] : List Nat).take
          (([1, 3, 0, 0, 0, 1, 0x84, 0x0A] : List Nat).length - 2))) :=
  ⟨by decide, crc_codec_correct.2 [1, 3, 0, 0, 0, 1, 0x84, 0x0A] (by decide)⟩

/-- Python `bytes(list)`: succeeds exactly when every element fits in a byte;
a value of 256 or more raises `ValueError`, modelled as `none`. -/
def bytesOf (l : List Nat) : Option (List Nat) :=
  if l.all (fun b => b < 256) then some l else none

/-- `response_bytes + self._calculate_crc(response_bytes)`: the pattern every
handler uses to finish a frame. -/
def frame_with_crc (response_bytes : List Nat) : List Nat :=
  response_bytes ++ calculate_crc response_bytes

/-- `_send_exception_response`: builds `[slave_id, function_code | 0x80,
exception_code]`, appends the CRC and writes the frame; if `bytes()` fails
the surrounding `except` swallows the error and nothing is written. -/
def send_exception_response (slave_id function_code exception_code : Nat) :
    List (List Nat) :=
  match bytesOf [slave_id, function_code ||| 0x80, exception_code] with
  | some response_bytes => [frame_with_crc response_bytes]
  | none => []

/-- Result of running one handler: the value returned to `_process_request`,
the (possibly mutated) slave, and the frames the handler wrote directly. -/
structure HandlerResult where
  response : Option (List Nat)
  slave : SlaveConfig
  sent : List (List Nat)
deriving DecidableEq

/-- The register loop of `_handle_read_holding_registers` /
`_handle_read_input_registers`: big-endian pairs, absent addresses read 0. -/
def read_registers_data (regs : List (Nat × Nat)) (start_address quantity : Nat) :
    List Nat :=
  (List.range quantity).flatMap fun i =>
    match dictLookup regs (start_address + i) with
    | some value => [(value >>> 8) &&& 0xFF, value &&& 0xFF]
    | none => [0x00, 0x00]

/-- The bit-packing loop of `_handle_read_coils` /
`_handle_read_discrete_inputs`: bit 0 of each byte is the lowest address,
bits past `quantity` stay 0, absent addresses read false. -/
def read_bits_data (bits : List (Nat × Bool)) (start_address quantity : Nat) :
    List Nat :=
  (List.range ((quantity + 7) / 8)).map fun byte_idx =>
    (List.range 8).foldl (fun byte_value bit_idx =>
      if start_address + byte_idx * 8 + bit_idx < start_address + quantity ∧
          dictLookup bits (start_address + byte_idx * 8 + bit_idx) = some true then
        byte_value ||| (1 <<< bit_idx)
      else byte_value) 0

/-- `_handle_read_holding_registers` (function code 0x03). -/
def handle_read_holding_registers (slave_id : Nat) (request_data : List Nat)
    (slave : SlaveConfig) : HandlerResult :=
  if request_data.length < 8 then ⟨none, slave, []⟩
  else
    let start_address := (request_data.getD 2 0) <<< 8 ||| request_data.getD 3 0
    let quantity := (request_data.getD 4 0) <<< 8 ||| request_data.getD 5 0
    if quantity < 1 ∨ quantity > 125 then
      ⟨none, slave, send_exception_response slave_id 0x03 0x03⟩
    else
      let response_data := [slave_id, 0x03, quantity * 2] ++
        read_registers_data slave.holding_registers start_address quantity
      match bytesOf response_data with
      | some response_bytes => ⟨some (frame_with_crc response_bytes), slave, []⟩
      | none => ⟨none, slave, send_exception_response slave_id 0x03 0x04⟩

/-- `_handle_read_input_registers` (function code 0x04). -/
def handle_read_input_registers (slave_id : Nat) (request_data : List Nat)
    (slave : SlaveConfig) : HandlerResult :=
  if request_data.length < 8 then ⟨none, slave, []⟩
  else
    let start_address := (request_data.getD 2 0) <<< 8 ||| request_data.getD 3 0
    let quantity := (request_data.getD 4 0) <<< 8 ||| request_data.getD 5 0
    if quantity < 1 ∨ quantity > 125 then
      ⟨none, slave, send_exception_response slave_id 0x04 0x03⟩
    else
      let response_data := [slave_id, 0x04, quantity * 2] ++
        read_registers_data slave.input_registers start_address quantity
      match bytesOf response_data with
      | some response_bytes => ⟨some (frame_with_crc response_bytes), slave, []⟩
      | none => ⟨none, slave, send_exception_response slave_id 0x04 0x04⟩

/-- `_handle_read_coils` (function code 0x01). -/
def handle_read_coils (slave_id : Nat) (request_data : List Nat)
    (slave : SlaveConfig) : HandlerResult :=
  if request_data.length < 8 then ⟨none, slave, []⟩
  else
    let start_address := (request_data.getD 2 0) <<< 8 ||| request_data.getD 3 0
    let quantity := (request_data.getD 4 0) <<< 8 ||| request_data.getD 5 0
    if quantity < 1 ∨ quantity > 2000 then
      ⟨none, slave, send_exception_response slave_id 0x01 0x03⟩
    else
      let byte_count := (quantity + 7) / 8
      let response_data := [slave_id, 0x01, byte_count] ++
        read_bits_data slave.coils start_address quantity
      match bytesOf response_data with
      | some response_bytes => ⟨some (frame_with_crc response_bytes), slave, []⟩
      | none => ⟨none, slave, send_exception_response slave_id 0x01 0x04⟩

/-- `_handle_read_discrete_inputs` (function code 0x02). -/
def handle_read_discrete_inputs (slave_id : Nat) (request_data : List Nat)
    (slave : SlaveConfig) : HandlerResult :=
  if request_data.length < 8 then ⟨none, slave, []⟩
  else
    let start_address := (request_data.getD 2 0) <<< 8 ||| request_data.getD 3 0
    let quantity := (request_data.getD 4 0) <<< 8 ||| request_data.getD 5 0
    if quantity < 1 ∨ quantity > 2000 then
      ⟨none, slave, send_exception_response slave_id 0x02 0x03⟩
    else
      let byte_count := (quantity + 7) / 8
      let response_data := [slave_id, 0x02, byte_count] ++
        read_bits_data slave.discrete_inputs start_address quantity
      match bytesOf response_data with
      | some response_bytes => ⟨some (frame_with_crc response_bytes), slave, []⟩
      | none => ⟨none, slave, send_exception_response slave_id 0x02 0x04⟩

/-- `_handle_write_single_coil` (function code 0x05): the value must be
exactly 0x0000 or 0xFF00; the response echoes the request minus its CRC,
with a fresh CRC. -/
def handle_write_single_coil (slave_id : Nat) (request_data : List Nat)
    (slave : SlaveConfig) : HandlerResult :=
  if request_data.length < 8 then ⟨none, slave, []⟩
  else
    let coil_address := (request_data.getD 2 0) <<< 8 ||| request_data.getD 3 0
    let coil_value := (request_data.getD 4 0) <<< 8 ||| request_data.getD 5 0
    if coil_value ≠ 0x0000 ∧ coil_value ≠ 0xFF00 then
      ⟨none, slave, send_exception_response slave_id 0x05 0x03⟩
    else
      let slave' := { slave with
        coils := dictInsert slave.coils coil_address (coil_value == 0xFF00) }
      let response_bytes := request_data.take (request_data.length - 2)
      ⟨some (frame_with_crc response_bytes), slave', []⟩

/-- `_handle_write_single_register` (function code 0x06): no value check. -/
def handle_write_single_register (slave_id : Nat) (request_data : List Nat)
    (slave : SlaveConfig) : HandlerResult :=
  if request_data.length < 8 then ⟨none, slave, []⟩
  else
    let register_address := (request_data.getD 2 0) <<< 8 ||| request_data.getD 3 0
    let register_value := (request_data.getD 4 0) <<< 8 ||| request_data.getD 5 0
    let slave' := { slave with
      holding_registers := dictInsert slave.holding_registers register_address register_value }
    let response_bytes := request_data.take (request_data.length - 2)
    ⟨some (frame_with_crc response_bytes), slave', []⟩

/-- The write loop of `_handle_write_multiple_coils`, one iteration per `i`
in `range(quantity)`.  Indexing `coil_data[byte_idx]` out of range raises
`IndexError`; the prefix already written stays written (the dict is mutated
in place), flagged by the `false` in the result. -/
def write_coils_go (coil_data : List Nat) (start_address : Nat) :
    List (Nat × Bool) → List Nat → List (Nat × Bool) × Bool
  | coils, [] => (coils, true)
  | coils, i :: rest =>
    match coil_data[i / 8]? with
    | none => (coils, false)
    | some byte =>
      write_coils_go coil_data start_address
        (dictInsert coils (start_address + i) (byte &&& (1 <<< (i % 8)) != 0)) rest

/-- `_handle_write_multiple_coils` (function code 0x0F). -/
def handle_write_multiple_coils (slave_id : Nat) (request_data : List Nat)
    (slave : SlaveConfig) : HandlerResult :=
  if request_data.length < 9 then ⟨none, slave, []⟩
  else
    let start_address := (request_data.getD 2 0) <<< 8 ||| request_data.getD 3 0
    let quantity := (request_data.getD 4 0) <<< 8 ||| request_data.getD 5 0
    let byte_count := request_data.getD 6 0
    if quantity < 1 ∨ quantity > 1968 ∨ byte_count ≠ (quantity + 7) / 8 then
      ⟨none, slave, send_exception_response slave_id 0x0F 0x03⟩
    else
      let coil_data := (request_data.drop 7).take byte_count
      match write_coils_go coil_data start_address slave.coils (List.range quantity) with
      | (coils', true) =>
        let slave' := { slave with coils := coils' }
        let response_data := [slave_id, 0x0F] ++ (request_data.drop 2).take 4
        match bytesOf response_data with
        | some response_bytes => ⟨some (frame_with_crc response_bytes), slave', []⟩
        | none => ⟨none, slave', send_exception_response slave_id 0x0F 0x04⟩
      | (coils', false) =>
        ⟨none, { slave with coils := coils' },
          send_exception_response slave_id 0x0F 0x04⟩

/-- The write loop of `_handle_write_multiple_registers`: big-endian pairs
from `register_data`, with the same in-place mutation on `IndexError`. -/
def write_registers_go (register_data : List Nat) (start_address : Nat) :
    List (Nat × Nat) → List Nat → List (Nat × Nat) × Bool
  | regs, [] => (regs, true)
  | regs, i :: rest =>
    match register_data[i * 2]?, register_data[i * 2 + 1]? with
    | some hi, some lo =>
      write_registers_go register_data start_address
        (dictInsert regs (start_address + i) ((hi <<< 8) ||| lo)) rest
    | _, _ => (regs, false)

/-- `_handle_write_multiple_registers` (function code 0x10). -/
def handle_write_multiple_registers (slave_id : Nat) (request_data : List Nat)
    (slave : SlaveConfig) : HandlerResult :=
  if request_data.length < 9 then ⟨none, slave, []⟩
  else
    let start_address := (request_data.getD 2 0) <<< 8 ||| request_data.getD 3 0
    let quantity := (request_data.getD 4 0) <<< 8 ||| request_data.getD 5 0
    let byte_count := request_data.getD 6 0
    if quantity < 1 ∨ quantity > 123 ∨ byte_count ≠ quantity * 2 then
      ⟨none, slave, send_exception_response slave_id 0x10 0x03⟩
    else
      let register_data := (request_data.drop 7).take byte_count
      match write_registers_go register_data start_address
          slave.holding_registers (List.range quantity) with
      | (regs', true) =>
        let slave' := { slave with holding_registers := regs' }
        let response_data := [slave_id, 0x10] ++ (request_data.drop 2).take 4
        match bytesOf response_data with
        | some response_bytes => ⟨some (frame_with_crc response_bytes), slave', []⟩
        | none => ⟨none, slave', send_exception_response slave_id 0x10 0x04⟩
      | (regs', false) =>
        ⟨none, { slave with holding_registers := regs' },
          send_exception_response slave_id 0x10 0x04⟩

/-- The truncate-or-pad normalization of `_handle_read_file_records`. -/
def normalize_file_data (file_data : List Nat) (record_length : Nat) : List Nat :=
  if file_data.length > record_length * 2 then file_data.take (record_length * 2)
  else if file_data.length < record_length * 2 then
    file_data ++ List.replicate (record_length * 2 - file_data.length) 0x00
  else file_data

/-- The record lookup of `_handle_read_file_records`: the Python test
`file_number in slave.file_records and record_number in
slave.file_records[file_number]` followed by the indexed access. -/
def file_record_lookup (file_records : List (Nat × List (Nat × List Nat)))
    (file_number record_number : Nat) : Option (List Nat) :=
  match dictLookup file_records file_number with
  | some records => dictLookup records record_number
  | none => none

/-- `_handle_read_file_records` (function code 0x14). -/
def handle_read_file_records (slave_id : Nat) (request_data : List Nat)
    (slave : SlaveConfig) : HandlerResult :=
  if request_data.length < 10 then ⟨none, slave, []⟩
  else
    let byte_count := request_data.getD 2 0
    if byte_count ≠ 7 then ⟨none, slave, send_exception_response slave_id 0x14 0x03⟩
    else
      let reference_type := request_data.getD 3 0
      let file_number := (request_data.getD 4 0) <<< 8 ||| request_data.getD 5 0
      let record_number := (request_data.getD 6 0) <<< 8 ||| request_data.getD 7 0
      let record_length := (request_data.getD 8 0) <<< 8 ||| request_data.getD 9 0
      if reference_type ≠ 6 then
        ⟨none, slave, send_exception_response slave_id 0x14 0x03⟩
      else
        match file_record_lookup slave.file_records file_number record_number with
        | some stored =>
          let file_data := normalize_file_data stored record_length
          let file_response_length := file_data.length + 1
          let response_data_length := file_response_length + 1
          let response_data :=
            [slave_id, 0x14, response_data_length, file_response_length, reference_type] ++
              file_data
          match bytesOf response_data with
          | some response_bytes => ⟨some (frame_with_crc response_bytes), slave, []⟩
          | none => ⟨none, slave, send_exception_response slave_id 0x14 0x04⟩
        | none =>
          let response_data := [slave_id, 0x14, 2, 1, reference_type]
          match bytesOf response_data with
          | some response_bytes => ⟨some (frame_with_crc response_bytes), slave, []⟩
          | none => ⟨none, slave, send_exception_response slave_id 0x14 0x04⟩

/-- The function-code dispatch chain of `_process_request`; `none` means the
code falls to the unsupported-function branch (exception 0x01). -/
def dispatch_function (function_code slave_id : Nat) (request_data : List Nat)
    (slave : SlaveConfig) : Option HandlerResult :=
  if function_code = 0x03 then some (handle_read_holding_registers slave_id request_data slave)
  else if function_code = 0x04 then some (handle_read_input_registers slave_id request_data slave)
  else if function_code = 0x01 then some (handle_read_coils slave_id request_data slave)
  else if function_code = 0x02 then some (handle_read_discrete_inputs slave_id request_data slave)
  else if function_code = 0x05 then some (handle_write_single_coil slave_id request_data slave)
  else if function_code = 0x06 then some (handle_write_single_register slave_id request_data slave)
  else if function_code = 0x0F then some (handle_write_multiple_coils slave_id request_data slave)
  else if function_code = 0x10 then some (handle_write_multiple_registers slave_id request_data slave)
  else if function_code = 0x14 then some (handle_read_file_records slave_id request_data slave)
  else none

/-- `if slave_id in self.stats: <mutate>` — a no-op when the id is absent. -/
def update_stats (stats : List (Nat × ConnectionStats)) (slave_id : Nat)
    (f : ConnectionStats → ConnectionStats) : List (Nat × ConnectionStats) :=
  match dictLookup stats slave_id with
  | some cs => dictInsert stats slave_id (f cs)
  | none => stats

/-- Outcome of `_process_request`: the new server state and the frames
written to the serial port, in write order. -/
structure ProcessResult where
  state : ServerState
  sent : List (List Nat)
deriving DecidableEq

/-- `_process_request`, the dispatcher.  Steps in source order: drop frames
shorter than 4 bytes; bump total/last-time/bytes-received if the slave has
statistics; exception 0x0B if the slave is not configured; drop silently on
CRC mismatch; dispatch to the handler or send exception 0x01; finally send
the response and count a success, or count a failure (`if response:` treats
an empty frame as falsy). -/
def process_request (st : ServerState) (now : Nat) (request_data : List Nat) :
    ProcessResult :=
  if request_data.length < 4 then ⟨st, []⟩
  else
    let slave_id := request_data.getD 0 0
    let function_code := request_data.getD 1 0
    let stats1 := update_stats st.stats slave_id (fun cs =>
      { cs with total_requests := cs.total_requests + 1,
                last_request_time := now,
                bytes_received := cs.bytes_received + request_data.length })
    match dictLookup st.slaves slave_id with
    | none =>
      ⟨{ st with stats := stats1 }, send_exception_response slave_id function_code 0x0B⟩
    | some slave =>
      if validate_crc request_data = false then ⟨{ st with stats := stats1 }, []⟩
      else
        match dispatch_function function_code slave_id request_data slave with
        | none =>
          ⟨{ st with stats := stats1 }, send_exception_response slave_id function_code 0x01⟩
        | some result =>
          let slaves' := dictInsert st.slaves slave_id result.slave
          match result.response with
          | some response =>
            if response.length = 0 then
              ⟨{ st with
                  slaves := slaves',
                  stats := update_stats stats1 slave_id (fun cs =>
                    { cs with failed_requests := cs.failed_requests + 1 }) },
               result.sent⟩
            else
              ⟨{ st with
                  slaves := slaves',
                  stats := update_stats stats1 slave_id (fun cs =>
                    { cs with successful_requests := cs.successful_requests + 1,
                              bytes_sent := cs.bytes_sent + response.length }) },
               result.sent ++ [response]⟩
          | none =>
            ⟨{ st with
                slaves := slaves',
                stats := update_stats stats1 slave_id (fun cs =>
                  { cs with failed_requests := cs.failed_requests + 1 }) },
             result.sent⟩

/-- `add_slave`: raises `ValueError` when the registry already holds
`max_slaves` entries; otherwise stores the slave under its identifier
(silently replacing any previous holder) and resets its statistics. -/
def add_slave (st : ServerState) (slave_config : SlaveConfig) :
    Except String ServerState :=
  if st.slaves.length ≥ st.max_slaves then
    Except.error "Maximum number of slaves reached"
  else
    Except.ok { st with
      slaves := dictInsert st.slaves slave_config.slave_id slave_config,
      stats := dictInsert st.stats slave_config.slave_id {} }

theorem dictLookup_insert_self {α : Type} (d : List (Nat × α)) (k : Nat) (v : α) :
    dictLookup (dictInsert d k v) k = some v := by
  induction d with
  | nil => simp [dictInsert, dictLookup]
  | cons p rest ih =>
    obtain ⟨k', v'⟩ := p
    by_cases h : k' = k <;> simp [dictInsert, dictLookup, h, ih]

theorem dictLookup_insert_ne {α : Type} (d : List (Nat × α)) (k j : Nat) (v : α)
    (h : j ≠ k) : dictLookup (dictInsert d k v) j = dictLookup d j := by
  induction d with
  | nil => simp [dictInsert, dictLookup, Ne.symm h]
  | cons p rest ih =>
    obtain ⟨k', v'⟩ := p
    by_cases hk : k' = k
    · subst hk
      simp [dictInsert, dictLookup, Ne.symm h]
    · simp only [dictInsert, if_neg hk, dictLookup]
      by_cases hj : k' = j <;> simp [hj, ih]

/-- Re-inserting the value a key already holds changes no lookup. -/
theorem dictLookup_insert_of_lookup {α : Type} {d : List (Nat × α)} {k : Nat}
    {v : α} (h : dictLookup d k = some v) (j : Nat) :
    dictLookup (dictInsert d k v) j = dictLookup d j := by
  by_cases hj : j = k
  · subst hj
    rw [dictLookup_insert_self, h]
  · exact dictLookup_insert_ne d k j v hj

theorem update_stats_lookup_self {stats : List (Nat × ConnectionStats)}
    {sid : Nat} {cs : ConnectionStats} (f : ConnectionStats → ConnectionStats)
    (h : dictLookup stats sid = some cs) :
    dictLookup (update_stats stats sid f) sid = some (f cs) := by
  simp [update_stats, h, dictLookup_insert_self]

theorem calculate_crc_eq (l : List Nat) :
    calculate_crc l =
      [calculate_crc_word l % 256, calculate_crc_word l / 256 % 256] := rfl

theorem frame_with_crc_ne_nil (b : List Nat) : frame_with_crc b ≠ [] := by
  simp [frame_with_crc, calculate_crc_eq]

theorem frame_with_crc_length (b : List Nat) :
    (frame_with_crc b).length = b.length + 2 := by
  simp [frame_with_crc, calculate_crc_eq]

/-- A frame built by appending the genuine CRC always validates. -/
theorem validate_frame_with_crc (b : List Nat) (hb : 1 ≤ b.length) :
    validate_crc (frame_with_crc b) = true := by
  have hlen : (frame_with_crc b).length = b.length + 2 := frame_with_crc_length b
  have hnot : ¬ (frame_with_crc b).length < 3 := by omega
  have hdrop : (frame_with_crc b).drop ((frame_with_crc b).length - 2) = calculate_crc b := by
    rw [hlen, frame_with_crc]
    exact List.drop_left' (by omega)
  have htake : (frame_with_crc b).take ((frame_with_crc b).length - 2) = b := by
    rw [hlen, frame_with_crc]
    exact List.take_left' (by omega)
  simp [validate_crc, hnot, hdrop, htake]

theorem shiftLeft8_or_eq (h l : Nat) (hl : l < 256) :
    (h <<< 8) ||| l = 256 * h + l := by
  have h256 : l < 2 ^ 8 := by omega
  rw [Nat.shiftLeft_eq, Nat.mul_comm]
  exact (Nat.mul_add_lt_is_or h256 h).symm

theorem hi_byte_eq (v : Nat) (hv : v < 65536) : (v >>> 8) &&& 0xFF = v / 256 := by
  rw [and_255_eq_mod, shiftRight_8_eq_div]
  exact Nat.mod_eq_of_lt (by omega)

theorem or_0x80_lt (fc : Nat) (h : fc < 256) : fc ||| 0x80 < 256 := by
  have h2 := Nat.or_lt_two_pow (show fc < 2 ^ 8 by omega) (show 0x80 < 2 ^ 8 by norm_num)
  omega

/-- With in-range arguments, `_send_exception_response` writes exactly one
frame: the three-byte exception body plus its CRC. -/
theorem send_exception_response_eq (sid fc code : Nat)
    (hsid : sid < 256) (hfc : fc < 256) (hcode : code < 256) :
    send_exception_response sid fc code =
      [frame_with_crc [sid, fc ||| 0x80, code]] := by
  have h2 : fc ||| 0x80 < 256 := or_0x80_lt fc hfc
  simp [send_exception_response, bytesOf, hsid, h2, hcode]

/-- Symbolic execution of `_process_request` along the accepted path: frame
long enough, slave configured, CRC valid, function code dispatched. -/
theorem process_request_eq (st : ServerState) (now : Nat) (req : List Nat)
    (s : SlaveConfig) (result : HandlerResult)
    (hlen : 4 ≤ req.length)
    (hslave : dictLookup st.slaves (req.getD 0 0) = some s)
    (hcrc : validate_crc req = true)
    (hdisp : dispatch_function (req.getD 1 0) (req.getD 0 0) req s = some result) :
    process_request st now req =
      ⟨{ st with
          slaves := dictInsert st.slaves (req.getD 0 0) result.slave,
          stats := update_stats
            (update_stats st.stats (req.getD 0 0) (fun cs =>
              { cs with total_requests := cs.total_requests + 1,
                        last_request_time := now,
                        bytes_received := cs.bytes_received + req.length }))
            (req.getD 0 0)
            (match result.response with
             | some response =>
               if response.length = 0 then
                 fun cs => { cs with failed_requests := cs.failed_requests + 1 }
               else
                 fun cs => { cs with successful_requests := cs.successful_requests + 1,
                                     bytes_sent := cs.bytes_sent + response.length }
             | none => fun cs => { cs with failed_requests := cs.failed_requests + 1 }) },
        result.sent ++ (match result.response with
          | some response => if response.length = 0 then [] else [response]
          | none => []) ⟩ := by
  have h4 : ¬ req.length < 4 := by omega
  rw [process_request, if_neg h4]
  simp only [hslave, hcrc, hdisp]
  match hresp : result.response with
  | some response =>
    by_cases hlen0 : response.length = 0 <;> simp [hlen0]
  | none => simp

theorem bytesOf_eq_some {l l' : List Nat} (h : bytesOf l = some l') :
    l' = l ∧ ∀ b ∈ l, b < 256 := by
  unfold bytesOf at h
  split at h
  · next hall =>
    refine ⟨(Option.some_inj.mp h).symm, ?_⟩
    intro b hb
    simpa using List.all_eq_true.mp hall b hb
  · cases h

theorem getD_append_left_nat {l l' : List Nat} {i : Nat} (h : i < l.length) (d : Nat) :
    (l ++ l').getD i d = l.getD i d := by
  simp [List.getD_eq_getElem?_getD, List.getElem?_append_left h]

theorem getD_take_of_lt {l : List Nat} {n i : Nat} (h : i < n) (d : Nat) :
    (l.take n).getD i d = l.getD i d := by
  simp [List.getD_eq_getElem?_getD, List.getElem?_take_of_lt h]

theorem handle_read_holding_registers_sent (sid : Nat) (req : List Nat)
    (slave : SlaveConfig) :
    (handle_read_holding_registers sid req slave).sent = [] ∨
    ∃ c, (c = 0x03 ∨ c = 0x04) ∧
      (handle_read_holding_registers sid req slave).sent =
        send_exception_response sid 0x03 c := by
  unfold handle_read_holding_registers
  split
  · exact Or.inl rfl
  try dsimp only
  split
  · exact Or.inr ⟨0x03, Or.inl rfl, rfl⟩
  try dsimp only
  split
  · exact Or.inl rfl
  · exact Or.inr ⟨0x04, Or.inr rfl, rfl⟩

theorem handle_read_input_registers_sent (sid : Nat) (req : List Nat)
    (slave : SlaveConfig) :
    (handle_read_input_registers sid req slave).sent = [] ∨
    ∃ c, (c = 0x03 ∨ c = 0x04) ∧
      (handle_read_input_registers sid req slave).sent =
        send_exception_response sid 0x04 c := by
  unfold handle_read_input_registers
  split
  · exact Or.inl rfl
  try dsimp only
  split
  · exact Or.inr ⟨0x03, Or.inl rfl, rfl⟩
  try dsimp only
  split
  · exact Or.inl rfl
  · exact Or.inr ⟨0x04, Or.inr rfl, rfl⟩

theorem handle_read_coils_sent (sid : Nat) (req : List Nat) (slave : SlaveConfig) :
    (handle_read_coils sid req slave).sent = [] ∨
    ∃ c, (c = 0x03 ∨ c = 0x04) ∧
      (handle_read_coils sid req slave).sent = send_exception_response sid 0x01 c := by
  unfold handle_read_coils
  split
  · exact Or.inl rfl
  try dsimp only
  split
  · exact Or.inr ⟨0x03, Or.inl rfl, rfl⟩
  try dsimp only
  split
  · exact Or.inl rfl
  · exact Or.inr ⟨0x04, Or.inr rfl, rfl⟩

theorem handle_read_discrete_inputs_sent (sid : Nat) (req : List Nat)
    (slave : SlaveConfig) :
    (handle_read_discrete_inputs sid req slave).sent = [] ∨
    ∃ c, (c = 0x03 ∨ c = 0x04) ∧
      (handle_read_discrete_inputs sid req slave).sent =
        send_exception_response sid 0x02 c := by
  unfold handle_read_discrete_inputs
  split
  · exact Or.inl rfl
  try dsimp only
  split
  · exact Or.inr ⟨0x03, Or.inl rfl, rfl⟩
  try dsimp only
  split
  · exact Or.inl rfl
  · exact Or.inr ⟨0x04, Or.inr rfl, rfl⟩

theorem handle_write_single_coil_sent (sid : Nat) (req : List Nat)
    (slave : SlaveConfig) :
    (handle_write_single_coil sid req slave).sent = [] ∨
    ∃ c, (c = 0x03 ∨ c = 0x04) ∧
      (handle_write_single_coil sid req slave).sent =
        send_exception_response sid 0x05 c := by
  unfold handle_write_single_coil
  split
  · exact Or.inl rfl
  try dsimp only
  split
  · exact Or.inr ⟨0x03, Or.inl rfl, rfl⟩
  · exact Or.inl rfl

theorem handle_write_single_register_sent (sid : Nat) (req : List Nat)
    (slave : SlaveConfig) :
    (handle_write_single_register sid req slave).sent = [] ∨
    ∃ c, (c = 0x03 ∨ c = 0x04) ∧
      (handle_write_single_register sid req slave).sent =
        send_exception_response sid 0x06 c := by
  unfold handle_write_single_register
  split
  · exact Or.inl rfl
  · exact Or.inl rfl

theorem handle_write_multiple_coils_sent (sid : Nat) (req : List Nat)
    (slave : SlaveConfig) :
    (handle_write_multiple_coils sid req slave).sent = [] ∨
    ∃ c, (c = 0x03 ∨ c = 0x04) ∧
      (handle_write_multiple_coils sid req slave).sent =
        send_exception_response sid 0x0F c := by
  unfold handle_write_multiple_coils
  split
  · exact Or.inl rfl
  try dsimp only
  split
  · exact Or.inr ⟨0x03, Or.inl rfl, rfl⟩
  try dsimp only
  split
  · try dsimp only
    split
    · exact Or.inl rfl
    · exact Or.inr ⟨0x04, Or.inr rfl, rfl⟩
  · exact Or.inr ⟨0x04, Or.inr rfl, rfl⟩

theorem handle_write_multiple_registers_sent (sid : Nat) (req : List Nat)
    (slave : SlaveConfig) :
    (handle_write_multiple_registers sid req slave).sent = [] ∨
    ∃ c, (c = 0x03 ∨ c = 0x04) ∧
      (handle_write_multiple_registers sid req slave).sent =
        send_exception_response sid 0x10 c := by
  unfold handle_write_multiple_registers
  split
  · exact Or.inl rfl
  try dsimp only
  split
  · exact Or.inr ⟨0x03, Or.inl rfl, rfl⟩
  try dsimp only
  split
  · try dsimp only
    split
    · exact Or.inl rfl
    · exact Or.inr ⟨0x04, Or.inr rfl, rfl⟩
  · exact Or.inr ⟨0x04, Or.inr rfl, rfl⟩

theorem handle_read_file_records_sent (sid : Nat) (req : List Nat)
    (slave : SlaveConfig) :
    (handle_read_file_records sid req slave).sent = [] ∨
    ∃ c, (c = 0x03 ∨ c = 0x04) ∧
      (handle_read_file_records sid req slave).sent =
        send_exception_response sid 0x14 c := by
  unfold handle_read_file_records
  split
  · exact Or.inl rfl
  try dsimp only
  split
  · exact Or.inr ⟨0x03, Or.inl rfl, rfl⟩
  try dsimp only
  split
  · exact Or.inr ⟨0x03, Or.inl rfl, rfl⟩
  try dsimp only
  split
  · try dsimp only
    split
    · exact Or.inl rfl
    · exact Or.inr ⟨0x04, Or.inr rfl, rfl⟩
  · try dsimp only
    split
    · exact Or.inl rfl
    · exact Or.inr ⟨0x04, Or.inr rfl, rfl⟩

theorem handle_read_holding_registers_response (sid : Nat) (req : List Nat)
    (slave : SlaveConfig) (r : List Nat)
    (h : (handle_read_holding_registers sid req slave).response = some r) :
    ∃ b, 2 ≤ b.length ∧ b.getD 1 0 = 0x03 ∧ r = frame_with_crc b := by
  unfold handle_read_holding_registers at h
  split at h
  · simp at h
  try dsimp only at h
  split at h
  · simp at h
  try dsimp only at h
  split at h
  · next response_bytes heq =>
    obtain ⟨rfl, -⟩ := bytesOf_eq_some heq
    refine ⟨_, ?_, ?_, (Option.some_inj.mp h).symm⟩
    · simp
    · rw [getD_append_left_nat (by simp)]
      rfl
  · simp at h

theorem handle_read_input_registers_response (sid : Nat) (req : List Nat)
    (slave : SlaveConfig) (r : List Nat)
    (h : (handle_read_input_registers sid req slave).response = some r) :
    ∃ b, 2 ≤ b.length ∧ b.getD 1 0 = 0x04 ∧ r = frame_with_crc b := by
  unfold handle_read_input_registers at h
  split at h
  · simp at h
  try dsimp only at h
  split at h
  · simp at h
  try dsimp only at h
  split at h
  · next response_bytes heq =>
    obtain ⟨rfl, -⟩ := bytesOf_eq_some heq
    refine ⟨_, ?_, ?_, (Option.some_inj.mp h).symm⟩
    · simp
    · rw [getD_append_left_nat (by simp)]
      rfl
  · simp at h

theorem handle_read_coils_response (sid : Nat) (req : List Nat)
    (slave : SlaveConfig) (r : List Nat)
    (h : (handle_read_coils sid req slave).response = some r) :
    ∃ b, 2 ≤ b.length ∧ b.getD 1 0 = 0x01 ∧ r = frame_with_crc b := by
  unfold handle_read_coils at h
  split at h
  · simp at h
  try dsimp only at h
  split at h
  · simp at h
  try dsimp only at h
  split at h
  · next response_bytes heq =>
    obtain ⟨rfl, -⟩ := bytesOf_eq_some heq
    refine ⟨_, ?_, ?_, (Option.some_inj.mp h).symm⟩
    · simp
    · rw [getD_append_left_nat (by simp)]
      rfl
  · simp at h

theorem handle_read_discrete_inputs_response (sid : Nat) (req : List Nat)
    (slave : SlaveConfig) (r : List Nat)
    (h : (handle_read_discrete_inputs sid req slave).response = some r) :
    ∃ b, 2 ≤ b.length ∧ b.getD 1 0 = 0x02 ∧ r = frame_with_crc b := by
  unfold handle_read_discrete_inputs at h
  split at h
  · simp at h
  try dsimp only at h
  split at h
  · simp at h
  try dsimp only at h
  split at h
  · next response_bytes heq =>
    obtain ⟨rfl, -⟩ := bytesOf_eq_some heq
    refine ⟨_, ?_, ?_, (Option.some_inj.mp h).symm⟩
    · simp
    · rw [getD_append_left_nat (by simp)]
      rfl
  · simp at h

theorem handle_write_single_coil_response (sid : Nat) (req : List Nat)
    (slave : SlaveConfig) (r : List Nat)
    (h : (handle_write_single_coil sid req slave).response = some r) :
    ∃ b, 2 ≤ b.length ∧ b.getD 1 0 = req.getD 1 0 ∧ r = frame_with_crc b := by
  unfold handle_write_single_coil at h
  split at h
  · simp at h
  next hlen =>
  try dsimp only at h
  split at h
  · simp at h
  · refine ⟨req.take (req.length - 2), ?_, ?_, (Option.some_inj.mp h).symm⟩
    · simp
      omega
    · exact getD_take_of_lt (by omega) 0

theorem handle_write_single_register_response (sid : Nat) (req : List Nat)
    (slave : SlaveConfig) (r : List Nat)
    (h : (handle_write_single_register sid req slave).response = some r) :
    ∃ b, 2 ≤ b.length ∧ b.getD 1 0 = req.getD 1 0 ∧ r = frame_with_crc b := by
  unfold handle_write_single_register at h
  split at h
  · simp at h
  next hlen =>
  refine ⟨req.take (req.length - 2), ?_, ?_, (Option.some_inj.mp h).symm⟩
  · simp
    omega
  · exact getD_take_of_lt (by omega) 0

theorem handle_write_multiple_coils_response (sid : Nat) (req : List Nat)
    (slave : SlaveConfig) (r : List Nat)
    (h : (handle_write_multiple_coils sid req slave).response = some r) :
    ∃ b, 2 ≤ b.length ∧ b.getD 1 0 = 0x0F ∧ r = frame_with_crc b := by
  unfold handle_write_multiple_coils at h
  split at h
  · simp at h
  try dsimp only at h
  split at h
  · simp at h
  try dsimp only at h
  split at h
  · try dsimp only at h
    split at h
    · next response_bytes heq =>
      obtain ⟨rfl, -⟩ := bytesOf_eq_some heq
      refine ⟨_, ?_, ?_, (Option.some_inj.mp h).symm⟩
      · simp
      · rw [getD_append_left_nat (by simp)]
        rfl
    · simp at h
  · simp at h

theorem handle_write_multiple_registers_response (sid : Nat) (req : List Nat)
    (slave : SlaveConfig) (r : List Nat)
    (h : (handle_write_multiple_registers sid req slave).response = some r) :
    ∃ b, 2 ≤ b.length ∧ b.getD 1 0 = 0x10 ∧ r = frame_with_crc b := by
  unfold handle_write_multiple_registers at h
  split at h
  · simp at h
  try dsimp only at h
  split at h
  · simp at h
  try dsimp only at h
  split at h
  · try dsimp only at h
    split at h
    · next response_bytes heq =>
      obtain ⟨rfl, -⟩ := bytesOf_eq_some heq
      refine ⟨_, ?_, ?_, (Option.some_inj.mp h).symm⟩
      · simp
      · rw [getD_append_left_nat (by simp)]
        rfl
    · simp at h
  · simp at h

theorem handle_read_file_records_response (sid : Nat) (req : List Nat)
    (slave : SlaveConfig) (r : List Nat)
    (h : (handle_read_file_records sid req slave).response = some r) :
    ∃ b, 2 ≤ b.length ∧ b.getD 1 0 = 0x14 ∧ r = frame_with_crc b := by
  unfold handle_read_file_records at h
  split at h
  · simp at h
  try dsimp only at h
  split at h
  · simp at h
  try dsimp only at h
  split at h
  · simp at h
  try dsimp only at h
  split at h
  · try dsimp only at h
    split at h
    · next response_bytes heq =>
      obtain ⟨rfl, -⟩ := bytesOf_eq_some heq
      refine ⟨_, ?_, ?_, (Option.some_inj.mp h).symm⟩
      · simp
      · rw [getD_append_left_nat (by simp)]
        rfl
    · simp at h
  · try dsimp only at h
    split at h
    · next response_bytes heq =>
      obtain ⟨rfl, -⟩ := bytesOf_eq_some heq
      refine ⟨_, ?_, ?_, (Option.some_inj.mp h).symm⟩
      · simp
      · rfl
    · simp at h

theorem mem_send_exception_response {f : List Nat} {sid fc code : Nat}
    (h : f ∈ send_exception_response sid fc code) : f.getD 2 0 = code := by
  unfold send_exception_response at h
  split at h
  · next rb heq =>
    obtain ⟨rfl, -⟩ := bytesOf_eq_some heq
    simp only [List.mem_singleton] at h
    subst h
    rw [frame_with_crc, getD_append_left_nat (by simp)]
    rfl
  · simp at h

theorem frame_getD1 (b : List Nat) (hb : 2 ≤ b.length) :
    (frame_with_crc b).getD 1 0 = b.getD 1 0 := by
  rw [frame_with_crc]
  exact getD_append_left_nat (by omega) 0

theorem sent_cases_no02 {res : HandlerResult} {sid fcl : Nat}
    (hcases : res.sent = [] ∨ ∃ c, (c = 0x03 ∨ c = 0x04) ∧
      res.sent = send_exception_response sid fcl c) :
    ∀ f ∈ res.sent, f.getD 2 0 = 0x03 ∨ f.getD 2 0 = 0x04 := by
  intro f hf
  rcases hcases with hs | ⟨c, hc, hs⟩
  · rw [hs] at hf
    simp at hf
  · rw [hs] at hf
    rcases hc with rfl | rfl
    · exact Or.inl (mem_send_exception_response hf)
    · exact Or.inr (mem_send_exception_response hf)

theorem response_lt_0x80 {o : Option (List Nat)} {v : Nat}
    (hshape : ∀ r, o = some r →
      ∃ b, 2 ≤ b.length ∧ b.getD 1 0 = v ∧ r = frame_with_crc b)
    (hv : v < 0x80) : ∀ r, o = some r → r.getD 1 0 < 0x80 := by
  intro r hr
  obtain ⟨b, hb2, hb1, rfl⟩ := hshape r hr
  rw [frame_getD1 b hb2, hb1]
  exact hv

theorem response_ne_nil_of_shape {o : Option (List Nat)} {v : Nat}
    (hshape : ∀ r, o = some r →
      ∃ b, 2 ≤ b.length ∧ b.getD 1 0 = v ∧ r = frame_with_crc b) :
    ∀ r, o = some r → r ≠ [] := by
  intro r hr
  obtain ⟨b, -, -, rfl⟩ := hshape r hr
  exact frame_with_crc_ne_nil b

/-- Every handler result reached through the dispatch chain: direct writes
carry exception code 0x03 or 0x04, success responses are non-empty frames
whose function-code byte stays below 0x80. -/
theorem dispatch_result_shape (sid : Nat) (req : List Nat) (slave : SlaveConfig)
    (result : HandlerResult)
    (hd : dispatch_function (req.getD 1 0) sid req slave = some result) :
    (∀ f ∈ result.sent, f.getD 2 0 = 0x03 ∨ f.getD 2 0 = 0x04) ∧
    (∀ r, result.response = some r → r.getD 1 0 < 0x80) ∧
    (∀ r, result.response = some r → r ≠ []) := by
  unfold dispatch_function at hd
  split at hd
  · obtain rfl := Option.some_inj.mp hd
    exact ⟨sent_cases_no02 (handle_read_holding_registers_sent sid req slave),
      response_lt_0x80 (handle_read_holding_registers_response sid req slave) (by norm_num),
      response_ne_nil_of_shape (handle_read_holding_registers_response sid req slave)⟩
  split at hd
  · obtain rfl := Option.some_inj.mp hd
    exact ⟨sent_cases_no02 (handle_read_input_registers_sent sid req slave),
      response_lt_0x80 (handle_read_input_registers_response sid req slave) (by norm_num),
      response_ne_nil_of_shape (handle_read_input_registers_response sid req slave)⟩
  split at hd
  · obtain rfl := Option.some_inj.mp hd
    exact ⟨sent_cases_no02 (handle_read_coils_sent sid req slave),
      response_lt_0x80 (handle_read_coils_response sid req slave) (by norm_num),
      response_ne_nil_of_shape (handle_read_coils_response sid req slave)⟩
  split at hd
  · obtain rfl := Option.some_inj.mp hd
    exact ⟨sent_cases_no02 (handle_read_discrete_inputs_sent sid req slave),
      response_lt_0x80 (handle_read_discrete_inputs_response sid req slave) (by norm_num),
      response_ne_nil_of_shape (handle_read_discrete_inputs_response sid req slave)⟩
  split at hd
  · next hfc =>
    obtain rfl := Option.some_inj.mp hd
    exact ⟨sent_cases_no02 (handle_write_single_coil_sent sid req slave),
      response_lt_0x80 (handle_write_single_coil_response sid req slave) (by omega),
      response_ne_nil_of_shape (handle_write_single_coil_response sid req slave)⟩
  split at hd
  · next hfc =>
    obtain rfl := Option.some_inj.mp hd
    exact ⟨sent_cases_no02 (handle_write_single_register_sent sid req slave),
      response_lt_0x80 (handle_write_single_register_response sid req slave) (by omega),
      response_ne_nil_of_shape (handle_write_single_register_response sid req slave)⟩
  split at hd
  · obtain rfl := Option.some_inj.mp hd
    exact ⟨sent_cases_no02 (handle_write_multiple_coils_sent sid req slave),
      response_lt_0x80 (handle_write_multiple_coils_response sid req slave) (by norm_num),
      response_ne_nil_of_shape (handle_write_multiple_coils_response sid req slave)⟩
  split at hd
  · obtain rfl := Option.some_inj.mp hd
    exact ⟨sent_cases_no02 (handle_write_multiple_registers_sent sid req slave),
      response_lt_0x80 (handle_write_multiple_registers_response sid req slave) (by norm_num),
      response_ne_nil_of_shape (handle_write_multiple_registers_response sid req slave)⟩
  split at hd
  · obtain rfl := Option.some_inj.mp hd
    exact ⟨sent_cases_no02 (handle_read_file_records_sent sid req slave),
      response_lt_0x80 (handle_read_file_records_response sid req slave) (by norm_num),
      response_ne_nil_of_shape (handle_read_file_records_response sid req slave)⟩
  · exact absurd hd (by simp)

/-- No path through `_process_request` ever writes an exception frame with
code 0x02 (Illegal Data Address): all wire frames whose function-code byte
has bit 7 set carry code 0x01, 0x03, 0x04 or 0x0B. -/
theorem process_sent_no_illegal_address (st : ServerState) (now : Nat)
    (req : List Nat) (f : List Nat)
    (hf : f ∈ (process_request st now req).sent) :
    0x80 ≤ f.getD 1 0 → f.getD 2 0 ≠ 0x02 := by
  unfold process_request at hf
  split at hf
  · simp at hf
  try dsimp only at hf
  split at hf
  · intro _
    have h := mem_send_exception_response hf
    omega
  · split at hf
    · simp at hf
    · split at hf
      · intro _
        have h := mem_send_exception_response hf
        omega
      · next result hdisp =>
        obtain ⟨hsent, hresp, -⟩ := dispatch_result_shape _ req _ result hdisp
        try dsimp only at hf
        split at hf
        · next response hsome =>
          split at hf
          · intro _
            have h := hsent f hf
            omega
          · rw [List.mem_append] at hf
            rcases hf with hf | hf
            · intro _
              have h := hsent f hf
              omega
            · intro h80
              rw [List.mem_singleton] at hf
              subst hf
              have h := hresp f hsome
              omega
        · intro _
          have h := hsent f hf
          omega

theorem dispatch_function_some_of_supported (fc sid : Nat) (req : List Nat)
    (slave : SlaveConfig)
    (hfc : fc = 0x01 ∨ fc = 0x02 ∨ fc = 0x03 ∨ fc = 0x04 ∨ fc = 0x05 ∨ fc = 0x06 ∨
      fc = 0x0F ∨ fc = 0x10 ∨ fc = 0x14) :
    ∃ result, dispatch_function fc sid req slave = some result := by
  rcases hfc with rfl | rfl | rfl | rfl | rfl | rfl | rfl | rfl | rfl <;>
    exact ⟨_, rfl⟩

/-- Claim C4.  For every decoded request the dispatcher accepts for a
configured slave — at least 4 bytes, one of the nine supported function
codes (the only ones `_read_request` ever emits), slave and statistics
present, CRC valid — processing bumps `total_requests` by one and exactly
one of `successful_requests` / `failed_requests` by one. -/
theorem accepted_request_counters (st : ServerState) (now : Nat) (req : List Nat)
    (s : SlaveConfig) (cs : ConnectionStats)
    (hlen : 4 ≤ req.length)
    (hfc : req.getD 1 0 = 0x01 ∨ req.getD 1 0 = 0x02 ∨ req.getD 1 0 = 0x03 ∨
      req.getD 1 0 = 0x04 ∨ req.getD 1 0 = 0x05 ∨ req.getD 1 0 = 0x06 ∨
      req.getD 1 0 = 0x0F ∨ req.getD 1 0 = 0x10 ∨ req.getD 1 0 = 0x14)
    (hslave : dictLookup st.slaves (req.getD 0 0) = some s)
    (hstats : dictLookup st.stats (req.getD 0 0) = some cs)
    (hcrc : validate_crc req = true) :
    ∃ cs', dictLookup (process_request st now req).state.stats (req.getD 0 0) = some cs' ∧
      cs'.total_requests = cs.total_requests + 1 ∧
      ((cs'.successful_requests = cs.successful_requests + 1 ∧
        cs'.failed_requests = cs.failed_requests) ∨
       (cs'.successful_requests = cs.successful_requests ∧
        cs'.failed_requests = cs.failed_requests + 1)) := by
  obtain ⟨result, hdisp⟩ :=
    dispatch_function_some_of_supported (req.getD 1 0) (req.getD 0 0) req s hfc
  have h1 := update_stats_lookup_self (fun cs =>
    { cs with total_requests := cs.total_requests + 1,
              last_request_time := now,
              bytes_received := cs.bytes_received + req.length }) hstats
  rw [process_request_eq st now req s result hlen hslave hcrc hdisp]
  dsimp only
  rcases hresp : result.response with - | response
  · simp only [hresp]
    exact ⟨_, update_stats_lookup_self _ h1, rfl, Or.inr ⟨rfl, rfl⟩⟩
  · have hne : response ≠ [] :=
      (dispatch_result_shape (req.getD 0 0) req s result hdisp).2.2 response hresp
    have hlen0 : ¬ response.length = 0 := by
      intro h0
      exact hne (List.eq_nil_of_length_eq_zero h0)
    simp only [hresp, if_neg hlen0]
    exact ⟨_, update_stats_lookup_self _ h1, rfl, Or.inl ⟨rfl, rfl⟩⟩

/-- A small configured server used by the concrete witnesses: slave 1 with
one holding register, one coil, one file record, and fresh statistics. -/
def demo_slave : SlaveConfig :=
  ⟨1, "demo", "demo device", [(2014, 0x3F80)], [(3001, 25)], [(0, true)], [],
    [(1, [(0, [65, 66])])]⟩

def demo_state : ServerState := ⟨[(1, demo_slave)], [(1, {})], 10⟩

/-- Witness for `accepted_request_counters`: the read-holding request
`01 03 00 00 00 01` with its genuine CRC against `demo_state`. -/
theorem accepted_request_counters_witness :
    4 ≤ ([1, 3, 0, 0, 0, 1, 0x84, 0x0A] : List Nat).length ∧
    ([1, 3, 0, 0, 0, 1, 0x84, 0x0A] : List Nat).getD 1 0 = 0x03 ∧
    dictLookup demo_state.slaves 1 = some demo_slave ∧
    dictLookup demo_state.stats 1 = some {} ∧
    validate_crc [1, 3, 0, 0, 0, 1, 0x84, 0x0A] = true ∧
    ∃ cs', dictLookup
        (process_request demo_state 0 [1, 3, 0, 0, 0, 1, 0x84, 0x0A]).state.stats
        (([1, 3, 0, 0, 0, 1, 0x84, 0x0A] : List Nat).getD 0 0) = some cs' ∧
      cs'.total_requests = ({} : ConnectionStats).total_requests + 1 ∧
      ((cs'.successful_requests = ({} : ConnectionStats).successful_requests + 1 ∧
        cs'.failed_requests = ({} : ConnectionStats).failed_requests) ∨
       (cs'.successful_requests = ({} : ConnectionStats).successful_requests ∧
        cs'.failed_requests = ({} : ConnectionStats).failed_requests + 1)) :=
  ⟨by decide, by decide, by decide, by decide, by decide,
    accepted_request_counters demo_state 0 [1, 3, 0, 0, 0, 1, 0x84, 0x0A]
      demo_slave {} (by decide) (Or.inr (Or.inr (Or.inl (by decide))))
      (by decide) (by decide) (by decide)⟩

theorem process_request_eq_crc_fail (st : ServerState) (now : Nat)
    (req : List Nat) (s : SlaveConfig)
    (hlen : 4 ≤ req.length)
    (hslave : dictLookup st.slaves (req.getD 0 0) = some s)
    (hcrc : validate_crc req = false) :
    process_request st now req =
      ⟨{ st with stats := update_stats st.stats (req.getD 0 0) (fun cs =>
          { cs with total_requests := cs.total_requests + 1,
                    last_request_time := now,
                    bytes_received := cs.bytes_received + req.length }) }, []⟩ := by
  have h4 : ¬ req.length < 4 := by omega
  rw [process_request, if_neg h4]
  simp only [hslave, hcrc]
  simp

theorem process_request_eq_no_slave (st : ServerState) (now : Nat)
    (req : List Nat)
    (hlen : 4 ≤ req.length)
    (hslave : dictLookup st.slaves (req.getD 0 0) = none) :
    process_request st now req =
      ⟨{ st with stats := update_stats st.stats (req.getD 0 0) (fun cs =>
          { cs with total_requests := cs.total_requests + 1,
                    last_request_time := now,
                    bytes_received := cs.bytes_received + req.length }) },
        send_exception_response (req.getD 0 0) (req.getD 1 0) 0x0B⟩ := by
  have h4 : ¬ req.length < 4 := by omega
  rw [process_request, if_neg h4]
  simp only [hslave]

/-- Claim C1 (amended).  For every frame of at least 4 bytes whose trailing
two bytes do not match the CRC: if the addressed slave is configured the
server writes nothing, bumping only the total counter (the failed counter
is NOT incremented); if the addressed slave is not configured, the slave
check runs BEFORE CRC validation and exception 0x0B is sent. -/
theorem crc_mismatch_behavior (st : ServerState) (now : Nat) (req : List Nat)
    (hlen : 4 ≤ req.length) (hcrc : validate_crc req = false) :
    (∀ s, dictLookup st.slaves (req.getD 0 0) = some s →
      (process_request st now req).sent = [] ∧
      ∀ cs, dictLookup st.stats (req.getD 0 0) = some cs →
        dictLookup (process_request st now req).state.stats (req.getD 0 0) =
          some { cs with total_requests := cs.total_requests + 1,
                         last_request_time := now,
                         bytes_received := cs.bytes_received + req.length }) ∧
    (dictLookup st.slaves (req.getD 0 0) = none →
      (process_request st now req).sent =
        send_exception_response (req.getD 0 0) (req.getD 1 0) 0x0B) := by
  constructor
  · intro s hs
    rw [process_request_eq_crc_fail st now req s hlen hs hcrc]
    refine ⟨rfl, ?_⟩
    intro cs hcs
    exact update_stats_lookup_self _ hcs
  · intro hnone
    rw [process_request_eq_no_slave st now req hlen hnone]

/-- Counterexample to claim C1 as stated: the CRC-invalid frame
`02 03 00 00 00 01 00 00` addressed to the unconfigured slave 2 draws an
exception response (bytes ARE written), and the CRC-invalid frame
`01 03 00 00 00 01 00 00` addressed to the configured slave 1 leaves that
slave's failed counter at 0 (it is NOT incremented). -/
theorem crc_mismatch_claim_counterexample :
    validate_crc [2, 3, 0, 0, 0, 1, 0, 0] = false ∧
    (process_request demo_state 0 [2, 3, 0, 0, 0, 1, 0, 0]).sent ≠ [] ∧
    validate_crc [1, 3, 0, 0, 0, 1, 0, 0] = false ∧
    dictLookup (process_request demo_state 0 [1, 3, 0, 0, 0, 1, 0, 0]).state.stats 1 =
      some { total_requests := 1, successful_requests := 0, failed_requests := 0,
             last_request_time := 0, connection_uptime := 0, bytes_sent := 0,
             bytes_received := 8 } := by decide

/-- Witness for `crc_mismatch_behavior` at the CRC-invalid frame
`01 03 00 00 00 01 00 00` against `demo_state`. -/
theorem crc_mismatch_behavior_witness :
    4 ≤ ([1, 3, 0, 0, 0, 1, 0, 0] : List Nat).length ∧
    validate_crc [1, 3, 0, 0, 0, 1, 0, 0] = false ∧
    ((∀ s, dictLookup demo_state.slaves (([1, 3, 0, 0, 0, 1, 0, 0] : List Nat).getD 0 0) = some s →
      (process_request demo_state 0 [1, 3, 0, 0, 0, 1, 0, 0]).sent = [] ∧
      ∀ cs, dictLookup demo_state.stats (([1, 3, 0, 0, 0, 1, 0, 0] : List Nat).getD 0 0) = some cs →
        dictLookup (process_request demo_state 0 [1, 3, 0, 0, 0, 1, 0, 0]).state.stats
            (([1, 3, 0, 0, 0, 1, 0, 0] : List Nat).getD 0 0) =
          some { cs with total_requests := cs.total_requests + 1,
                         last_request_time := 0,
                         bytes_received := cs.bytes_received +
                           ([1, 3, 0, 0, 0, 1, 0, 0] : List Nat).length }) ∧
     (dictLookup demo_state.slaves (([1, 3, 0, 0, 0, 1, 0, 0] : List Nat).getD 0 0) = none →
      (process_request demo_state 0 [1, 3, 0, 0, 0, 1, 0, 0]).sent =
        send_exception_response (([1, 3, 0, 0, 0, 1, 0, 0] : List Nat).getD 0 0)
          (([1, 3, 0, 0, 0, 1, 0, 0] : List Nat).getD 1 0) 0x0B)) :=
  ⟨by decide, by decide,
    crc_mismatch_behavior demo_state 0 [1, 3, 0, 0, 0, 1, 0, 0] (by decide) (by decide)⟩

/-- Claim C3 (amended).  `add_slave` raises a capacity error exactly when the
registry already holds `max_slaves` entries (the state is unchanged because
the check precedes any mutation); below the ceiling it never fails — a
duplicate identifier is NOT an error: the new slave silently replaces the
old one, its statistics are reset, and every other identifier is untouched. -/
theorem add_slave_capacity_and_replace (st : ServerState) (cfg : SlaveConfig) :
    (st.max_slaves ≤ st.slaves.length →
      add_slave st cfg = Except.error "Maximum number of slaves reached") ∧
    (st.slaves.length < st.max_slaves →
      ∃ st', add_slave st cfg = Except.ok st' ∧
        dictLookup st'.slaves cfg.slave_id = some cfg ∧
        dictLookup st'.stats cfg.slave_id = some {} ∧
        ∀ k, k ≠ cfg.slave_id →
          dictLookup st'.slaves k = dictLookup st.slaves k ∧
          dictLookup st'.stats k = dictLookup st.stats k) := by
  constructor
  · intro hcap
    rw [add_slave, if_pos (by omega)]
  · intro hcap
    refine ⟨_, by rw [add_slave, if_neg (by omega)], ?_, ?_, ?_⟩
    · exact dictLookup_insert_self st.slaves cfg.slave_id cfg
    · exact dictLookup_insert_self st.stats cfg.slave_id {}
    · intro k hk
      exact ⟨dictLookup_insert_ne st.slaves cfg.slave_id k cfg hk,
        dictLookup_insert_ne st.stats cfg.slave_id k {} hk⟩

/-- A second slave configuration carrying the same identifier 1 as
`demo_slave`, used to exhibit the silent replacement. -/
def rival_slave : SlaveConfig := ⟨1, "rival", "replacement device", [], [], [], [], []⟩

/-- Counterexample to claim C3 as stated: slave 1 is already configured and
the registry is below its ceiling, yet `add_slave` with a second slave of
identifier 1 succeeds — there is no identifier-in-use error; the old slave
is replaced and its statistics reset. -/
theorem add_slave_id_in_use_counterexample :
    dictLookup demo_state.slaves 1 = some demo_slave ∧
    demo_state.slaves.length < demo_state.max_slaves ∧
    add_slave demo_state rival_slave =
      Except.ok ⟨[(1, rival_slave)], [(1, {})], 10⟩ :=
  ⟨rfl, by decide, rfl⟩

/-- Witness for `add_slave_capacity_and_replace` at `demo_state` and
`rival_slave` (both branches' hypotheses are decidable; the ceiling branch
is exercised on a saturated variant with `max_slaves = 1`). -/
theorem add_slave_capacity_and_replace_witness :
    (({ demo_state with max_slaves := 1 } : ServerState).max_slaves ≤
        ({ demo_state with max_slaves := 1 } : ServerState).slaves.length ∧
      add_slave { demo_state with max_slaves := 1 } rival_slave =
        Except.error "Maximum number of slaves reached") ∧
    (demo_state.slaves.length < demo_state.max_slaves ∧
      ∃ st', add_slave demo_state rival_slave = Except.ok st' ∧
        dictLookup st'.slaves rival_slave.slave_id = some rival_slave ∧
        dictLookup st'.stats rival_slave.slave_id = some {} ∧
        ∀ k, k ≠ rival_slave.slave_id →
          dictLookup st'.slaves k = dictLookup demo_state.slaves k ∧
          dictLookup st'.stats k = dictLookup demo_state.stats k) :=
  ⟨⟨by decide,
    (add_slave_capacity_and_replace { demo_state with max_slaves := 1 } rival_slave).1
      (by decide)⟩,
   ⟨by decide,
    (add_slave_capacity_and_replace demo_state rival_slave).2 (by decide)⟩⟩

theorem getD_lt_256 {l : List Nat} (hall : ∀ b ∈ l, b < 256) (i : Nat)
    (hi : i < l.length) : l.getD i 0 < 256 := by
  have hmem : l.getD i 0 ∈ l := by
    rw [List.getD_eq_getElem?_getD, List.getElem?_eq_getElem hi]
    exact List.getElem_mem hi
  exact hall _ hmem

/-- Claim C5.  A CRC-valid read request (function 0x01/0x02 with quantity 0
or above 2000, or 0x03/0x04 with quantity 0 or above 125) addressed to a
configured slave draws exactly one exception frame with code 0x03, and no
slave store changes. -/
theorem read_quantity_out_of_range (st : ServerState) (now : Nat) (req : List Nat)
    (s : SlaveConfig)
    (hlen : req.length = 8)
    (hbytes : ∀ b ∈ req, b < 256)
    (hslave : dictLookup st.slaves (req.getD 0 0) = some s)
    (hcrc : validate_crc req = true)
    (hfc : req.getD 1 0 = 0x01 ∨ req.getD 1 0 = 0x02 ∨ req.getD 1 0 = 0x03 ∨
      req.getD 1 0 = 0x04)
    (hq1 : req.getD 1 0 ≤ 0x02 →
      (req.getD 4 0) <<< 8 ||| req.getD 5 0 = 0 ∨
        2000 < (req.getD 4 0) <<< 8 ||| req.getD 5 0)
    (hq2 : 0x03 ≤ req.getD 1 0 →
      (req.getD 4 0) <<< 8 ||| req.getD 5 0 = 0 ∨
        125 < (req.getD 4 0) <<< 8 ||| req.getD 5 0) :
    (process_request st now req).sent =
      [frame_with_crc [req.getD 0 0, req.getD 1 0 ||| 0x80, 0x03]] ∧
    ∀ k, dictLookup (process_request st now req).state.slaves k =
      dictLookup st.slaves k := by
  have hsid : req.getD 0 0 < 256 := getD_lt_256 hbytes 0 (by omega)
  have hlen4 : 4 ≤ req.length := by omega
  have h8 : ¬ req.length < 8 := by omega
  rcases hfc with hfc | hfc | hfc | hfc
  case inl =>
    have hq := hq1 (by omega)
    have hres : handle_read_coils (req.getD 0 0) req s =
        ⟨none, s, send_exception_response (req.getD 0 0) 0x01 0x03⟩ := by
      unfold handle_read_coils
      rw [if_neg h8]
      dsimp only
      rw [if_pos (by omega)]
    have hdisp : dispatch_function (req.getD 1 0) (req.getD 0 0) req s =
        some ⟨none, s, send_exception_response (req.getD 0 0) 0x01 0x03⟩ := by
      rw [hfc]
      show some (handle_read_coils (req.getD 0 0) req s) = _
      rw [hres]
    rw [process_request_eq st now req s _ hlen4 hslave hcrc hdisp]
    dsimp only
    constructor
    · rw [send_exception_response_eq _ _ _ hsid (by omega) (by omega), hfc]
      simp
    · intro k
      exact dictLookup_insert_of_lookup hslave k
  case inr.inl =>
    have hq := hq1 (by omega)
    have hres : handle_read_discrete_inputs (req.getD 0 0) req s =
        ⟨none, s, send_exception_response (req.getD 0 0) 0x02 0x03⟩ := by
      unfold handle_read_discrete_inputs
      rw [if_neg h8]
      dsimp only
      rw [if_pos (by omega)]
    have hdisp : dispatch_function (req.getD 1 0) (req.getD 0 0) req s =
        some ⟨none, s, send_exception_response (req.getD 0 0) 0x02 0x03⟩ := by
      rw [hfc]
      show some (handle_read_discrete_inputs (req.getD 0 0) req s) = _
      rw [hres]
    rw [process_request_eq st now req s _ hlen4 hslave hcrc hdisp]
    dsimp only
    constructor
    · rw [send_exception_response_eq _ _ _ hsid (by omega) (by omega), hfc]
      simp
    · intro k
      exact dictLookup_insert_of_lookup hslave k
  case inr.inr.inl =>
    have hq := hq2 (by omega)
    have hres : handle_read_holding_registers (req.getD 0 0) req s =
        ⟨none, s, send_exception_response (req.getD 0 0) 0x03 0x03⟩ := by
      unfold handle_read_holding_registers
      rw [if_neg h8]
      dsimp only
      rw [if_pos (by omega)]
    have hdisp : dispatch_function (req.getD 1 0) (req.getD 0 0) req s =
        some ⟨none, s, send_exception_response (req.getD 0 0) 0x03 0x03⟩ := by
      rw [hfc]
      show some (handle_read_holding_registers (req.getD 0 0) req s) = _
      rw [hres]
    rw [process_request_eq st now req s _ hlen4 hslave hcrc hdisp]
    dsimp only
    constructor
    · rw [send_exception_response_eq _ _ _ hsid (by omega) (by omega), hfc]
      simp
    · intro k
      exact dictLookup_insert_of_lookup hslave k
  case inr.inr.inr =>
    have hq := hq2 (by omega)
    have hres : handle_read_input_registers (req.getD 0 0) req s =
        ⟨none, s, send_exception_response (req.getD 0 0) 0x04 0x03⟩ := by
      unfold handle_read_input_registers
      rw [if_neg h8]
      dsimp only
      rw [if_pos (by omega)]
    have hdisp : dispatch_function (req.getD 1 0) (req.getD 0 0) req s =
        some ⟨none, s, send_exception_response (req.getD 0 0) 0x04 0x03⟩ := by
      rw [hfc]
      show some (handle_read_input_registers (req.getD 0 0) req s) = _
      rw [hres]
    rw [process_request_eq st now req s _ hlen4 hslave hcrc hdisp]
    dsimp only
    constructor
    · rw [send_exception_response_eq _ _ _ hsid (by omega) (by omega), hfc]
      simp
    · intro k
      exact dictLookup_insert_of_lookup hslave k

/-- Witness for `read_quantity_out_of_range`: request `01 01 00 00 07 D1`
(read 2001 coils) with its genuine CRC against `demo_state`. -/
theorem read_quantity_out_of_range_witness :
    ([1, 1, 0, 0, 0x07, 0xD1, 0xFE, 0x66] : List Nat).length = 8 ∧
    (∀ b ∈ ([1, 1, 0, 0, 0x07, 0xD1, 0xFE, 0x66] : List Nat), b < 256) ∧
    dictLookup demo_state.slaves 1 = some demo_slave ∧
    validate_crc [1, 1, 0, 0, 0x07, 0xD1, 0xFE, 0x66] = true ∧
    (process_request demo_state 0 [1, 1, 0, 0, 0x07, 0xD1, 0xFE, 0x66]).sent =
      [frame_with_crc [1, 1 ||| 0x80, 0x03]] ∧
    ∀ k, dictLookup
        (process_request demo_state 0 [1, 1, 0, 0, 0x07, 0xD1, 0xFE, 0x66]).state.slaves k =
      dictLookup demo_state.slaves k :=
  ⟨by decide, by decide, by decide, by decide,
    (read_quantity_out_of_range demo_state 0 [1, 1, 0, 0, 0x07, 0xD1, 0xFE, 0x66]
      demo_slave (by decide) (by decide) (by decide) (by decide)
      (Or.inl (by decide)) (fun _ => Or.inr (by decide))
      (fun h => absurd h (by decide))).1,
    (read_quantity_out_of_range demo_state 0 [1, 1, 0, 0, 0x07, 0xD1, 0xFE, 0x66]
      demo_slave (by decide) (by decide) (by decide) (by decide)
      (Or.inl (by decide)) (fun _ => Or.inr (by decide))
      (fun h => absurd h (by decide))).2⟩

/-- Claim C8.  For a CRC-valid write-single-coil request (function 0x05) to
a configured slave: any 16-bit value other than 0x0000 or 0xFF00 draws
exception 0x03 and changes no coil; otherwise `coils[address]` becomes
false for 0x0000 and true for 0xFF00, and the response is the request minus
its original CRC with a freshly computed CRC appended. -/
theorem write_single_coil_spec (st : ServerState) (now : Nat) (req : List Nat)
    (s : SlaveConfig)
    (hlen : req.length = 8)
    (hbytes : ∀ b ∈ req, b < 256)
    (hfc : req.getD 1 0 = 0x05)
    (hslave : dictLookup st.slaves (req.getD 0 0) = some s)
    (hcrc : validate_crc req = true) :
    ((req.getD 4 0) <<< 8 ||| req.getD 5 0 ≠ 0x0000 ∧
     (req.getD 4 0) <<< 8 ||| req.getD 5 0 ≠ 0xFF00 →
      (process_request st now req).sent =
        [frame_with_crc [req.getD 0 0, 0x85, 0x03]] ∧
      ∀ k, dictLookup (process_request st now req).state.slaves k =
        dictLookup st.slaves k) ∧
    ((req.getD 4 0) <<< 8 ||| req.getD 5 0 = 0x0000 ∨
     (req.getD 4 0) <<< 8 ||| req.getD 5 0 = 0xFF00 →
      (process_request st now req).sent = [frame_with_crc (req.take 6)] ∧
      (process_request st now req).state.slaves =
        dictInsert st.slaves (req.getD 0 0)
          { s with coils := dictInsert s.coils ((req.getD 2 0) <<< 8 ||| req.getD 3 0)
                              (((req.getD 4 0) <<< 8 ||| req.getD 5 0) == 0xFF00) }) := by
  have hsid : req.getD 0 0 < 256 := getD_lt_256 hbytes 0 (by omega)
  have h8 : ¬ req.length < 8 := by omega
  have hlen4 : 4 ≤ req.length := by omega
  constructor
  · intro hv
    have hres : handle_write_single_coil (req.getD 0 0) req s =
        ⟨none, s, send_exception_response (req.getD 0 0) 0x05 0x03⟩ := by
      unfold handle_write_single_coil
      rw [if_neg h8]
      dsimp only
      rw [if_pos hv]
    have hdisp : dispatch_function (req.getD 1 0) (req.getD 0 0) req s =
        some ⟨none, s, send_exception_response (req.getD 0 0) 0x05 0x03⟩ := by
      rw [hfc]
      show some (handle_write_single_coil (req.getD 0 0) req s) = _
      rw [hres]
    rw [process_request_eq st now req s _ hlen4 hslave hcrc hdisp]
    dsimp only
    refine ⟨?_, fun k => dictLookup_insert_of_lookup hslave k⟩
    rw [send_exception_response_eq _ _ _ hsid (by omega) (by omega)]
    rfl
  · intro hv
    have hnv : ¬ ((req.getD 4 0) <<< 8 ||| req.getD 5 0 ≠ 0x0000 ∧
        (req.getD 4 0) <<< 8 ||| req.getD 5 0 ≠ 0xFF00) := by
      omega
    have hres : handle_write_single_coil (req.getD 0 0) req s =
        ⟨some (frame_with_crc (req.take (req.length - 2))),
         { s with coils := dictInsert s.coils ((req.getD 2 0) <<< 8 ||| req.getD 3 0)
                             (((req.getD 4 0) <<< 8 ||| req.getD 5 0) == 0xFF00) }, []⟩ := by
      unfold handle_write_single_coil
      rw [if_neg h8]
      dsimp only
      rw [if_neg hnv]
    have hdisp : dispatch_function (req.getD 1 0) (req.getD 0 0) req s =
        some ⟨some (frame_with_crc (req.take (req.length - 2))),
         { s with coils := dictInsert s.coils ((req.getD 2 0) <<< 8 ||| req.getD 3 0)
                             (((req.getD 4 0) <<< 8 ||| req.getD 5 0) == 0xFF00) }, []⟩ := by
      rw [hfc]
      show some (handle_write_single_coil (req.getD 0 0) req s) = _
      rw [hres]
    rw [process_request_eq st now req s _ hlen4 hslave hcrc hdisp]
    dsimp only
    have hne : ¬ (frame_with_crc (req.take (req.length - 2))).length = 0 := by
      rw [frame_with_crc_length]
      omega
    rw [if_neg hne]
    constructor
    · rw [hlen]
      norm_num
    · rfl

/-- Witness for `write_single_coil_spec`: the spec's own scenario frame
`01 05 00 00 FF 00 8C 3A` (coil 0 on) against `demo_state`. -/
theorem write_single_coil_spec_witness :
    ([1, 5, 0, 0, 0xFF, 0, 0x8C, 0x3A] : List Nat).length = 8 ∧
    (∀ b ∈ ([1, 5, 0, 0, 0xFF, 0, 0x8C, 0x3A] : List Nat), b < 256) ∧
    ([1, 5, 0, 0, 0xFF, 0, 0x8C, 0x3A] : List Nat).getD 1 0 = 0x05 ∧
    dictLookup demo_state.slaves 1 = some demo_slave ∧
    validate_crc [1, 5, 0, 0, 0xFF, 0, 0x8C, 0x3A] = true ∧
    ((0xFF : Nat) <<< 8 ||| 0 = 0x0000 ∨ (0xFF : Nat) <<< 8 ||| 0 = 0xFF00) ∧
    ((process_request demo_state 0 [1, 5, 0, 0, 0xFF, 0, 0x8C, 0x3A]).sent =
      [frame_with_crc (([1, 5, 0, 0, 0xFF, 0, 0x8C, 0x3A] : List Nat).take 6)] ∧
     (process_request demo_state 0 [1, 5, 0, 0, 0xFF, 0, 0x8C, 0x3A]).state.slaves =
      dictInsert demo_state.slaves 1
        { demo_slave with coils := dictInsert demo_slave.coils 0 true }) :=
  ⟨by decide, by decide, by decide, by decide, by decide, Or.inr (by decide),
    (write_single_coil_spec demo_state 0 [1, 5, 0, 0, 0xFF, 0, 0x8C, 0x3A]
      demo_slave (by decide) (by decide) (by decide) (by decide) (by decide)).2
      (Or.inr (by decide))⟩

theorem frame_with_crc_getD (b : List Nat) (i : Nat) (hi : i < b.length) :
    (frame_with_crc b).getD i 0 = b.getD i 0 := by
  rw [frame_with_crc]
  exact getD_append_left_nat hi 0

theorem byte_pair_recompose (x : Nat) :
    (x / 256) <<< 8 ||| x % 256 = x := by
  rw [shiftLeft8_or_eq _ _ (Nat.mod_lt _ (by norm_num))]
  exact Nat.div_add_mod x 256

/-- Claim C6.  Writing value `v` to holding register `a` through function
0x06 and then reading one register at `a` through function 0x03 yields a
response whose data bytes are exactly the big-endian encoding of `v`
(byte count 2). -/
theorem write_then_read_roundtrip (st : ServerState) (now1 now2 : Nat)
    (sid a v : Nat) (s : SlaveConfig)
    (hsid : sid < 256) (ha : a < 65536) (hv : v < 65536)
    (hslave : dictLookup st.slaves sid = some s) :
    (process_request
        (process_request st now1
          (frame_with_crc [sid, 0x06, a / 256, a % 256, v / 256, v % 256])).state
        now2
        (frame_with_crc [sid, 0x03, a / 256, a % 256, 0, 1])).sent =
      [frame_with_crc [sid, 0x03, 2, v / 256, v % 256]] := by
  have hw0 : (frame_with_crc [sid, 0x06, a / 256, a % 256, v / 256, v % 256]).getD 0 0 = sid := by
    rw [frame_with_crc_getD _ 0 (by simp)]
    rfl
  have hw1 : (frame_with_crc [sid, 0x06, a / 256, a % 256, v / 256, v % 256]).getD 1 0 = 0x06 := by
    rw [frame_with_crc_getD _ 1 (by simp)]
    rfl
  have hw2 : (frame_with_crc [sid, 0x06, a / 256, a % 256, v / 256, v % 256]).getD 2 0 = a / 256 := by
    rw [frame_with_crc_getD _ 2 (by simp)]
    rfl
  have hw3 : (frame_with_crc [sid, 0x06, a / 256, a % 256, v / 256, v % 256]).getD 3 0 = a % 256 := by
    rw [frame_with_crc_getD _ 3 (by simp)]
    rfl
  have hw4 : (frame_with_crc [sid, 0x06, a / 256, a % 256, v / 256, v % 256]).getD 4 0 = v / 256 := by
    rw [frame_with_crc_getD _ 4 (by simp)]
    rfl
  have hw5 : (frame_with_crc [sid, 0x06, a / 256, a % 256, v / 256, v % 256]).getD 5 0 = v % 256 := by
    rw [frame_with_crc_getD _ 5 (by simp)]
    rfl
  have hwlen : (frame_with_crc [sid, 0x06, a / 256, a % 256, v / 256, v % 256]).length = 8 := by
    rw [frame_with_crc_length]
    rfl
  have hwcrc : validate_crc (frame_with_crc [sid, 0x06, a / 256, a % 256, v / 256, v % 256]) = true :=
    validate_frame_with_crc _ (by simp)
  have hslavew : dictLookup st.slaves
      ((frame_with_crc [sid, 0x06, a / 256, a % 256, v / 256, v % 256]).getD 0 0) = some s := by
    rw [hw0]
    exact hslave
  have hres1 : handle_write_single_register
      ((frame_with_crc [sid, 0x06, a / 256, a % 256, v / 256, v % 256]).getD 0 0)
      (frame_with_crc [sid, 0x06, a / 256, a % 256, v / 256, v % 256]) s =
      ⟨some (frame_with_crc ((frame_with_crc [sid, 0x06, a / 256, a % 256, v / 256, v % 256]).take 6)),
       { s with holding_registers := dictInsert s.holding_registers a v }, []⟩ := by
    unfold handle_write_single_register
    rw [if_neg (by omega)]
    dsimp only
    rw [hw2, hw3, hw4, hw5, byte_pair_recompose a, byte_pair_recompose v, hwlen]
  have hdisp1 : dispatch_function
      ((frame_with_crc [sid, 0x06, a / 256, a % 256, v / 256, v % 256]).getD 1 0)
      ((frame_with_crc [sid, 0x06, a / 256, a % 256, v / 256, v % 256]).getD 0 0)
      (frame_with_crc [sid, 0x06, a / 256, a % 256, v / 256, v % 256]) s =
      some ⟨some (frame_with_crc ((frame_with_crc [sid, 0x06, a / 256, a % 256, v / 256, v % 256]).take 6)),
       { s with holding_registers := dictInsert s.holding_registers a v }, []⟩ := by
    rw [hw1]
    show some (handle_write_single_register _ _ s) = _
    rw [hres1]
  have hslaves1 : (process_request st now1
      (frame_with_crc [sid, 0x06, a / 256, a % 256, v / 256, v % 256])).state.slaves =
      dictInsert st.slaves sid { s with holding_registers := dictInsert s.holding_registers a v } := by
    rw [process_request_eq st now1 _ s _ (by omega) hslavew hwcrc hdisp1]
    dsimp only
    rw [hw0]
  have hr0 : (frame_with_crc [sid, 0x03, a / 256, a % 256, 0, 1]).getD 0 0 = sid := by
    rw [frame_with_crc_getD _ 0 (by simp)]
    rfl
  have hr1 : (frame_with_crc [sid, 0x03, a / 256, a % 256, 0, 1]).getD 1 0 = 0x03 := by
    rw [frame_with_crc_getD _ 1 (by simp)]
    rfl
  have hr2 : (frame_with_crc [sid, 0x03, a / 256, a % 256, 0, 1]).getD 2 0 = a / 256 := by
    rw [frame_with_crc_getD _ 2 (by simp)]
    rfl
  have hr3 : (frame_with_crc [sid, 0x03, a / 256, a % 256, 0, 1]).getD 3 0 = a % 256 := by
    rw [frame_with_crc_getD _ 3 (by simp)]
    rfl
  have hr4 : (frame_with_crc [sid, 0x03, a / 256, a % 256, 0, 1]).getD 4 0 = 0 := by
    rw [frame_with_crc_getD _ 4 (by simp)]
    rfl
  have hr5 : (frame_with_crc [sid, 0x03, a / 256, a % 256, 0, 1]).getD 5 0 = 1 := by
    rw [frame_with_crc_getD _ 5 (by simp)]
    rfl
  have hrlen : (frame_with_crc [sid, 0x03, a / 256, a % 256, 0, 1]).length = 8 := by
    rw [frame_with_crc_length]
    rfl
  have hrcrc : validate_crc (frame_with_crc [sid, 0x03, a / 256, a % 256, 0, 1]) = true :=
    validate_frame_with_crc _ (by simp)
  have hslave2 : dictLookup (process_request st now1
      (frame_with_crc [sid, 0x06, a / 256, a % 256, v / 256, v % 256])).state.slaves
      ((frame_with_crc [sid, 0x03, a / 256, a % 256, 0, 1]).getD 0 0) =
      some { s with holding_registers := dictInsert s.holding_registers a v } := by
    rw [hr0, hslaves1]
    exact dictLookup_insert_self ..
  have hdata : read_registers_data (dictInsert s.holding_registers a v) a 1 =
      [v / 256, v % 256] := by
    unfold read_registers_data
    rw [show List.range 1 = [0] from rfl]
    simp only [List.flatMap_cons, List.flatMap_nil, Nat.add_zero,
      dictLookup_insert_self, List.append_nil]
    rw [hi_byte_eq v hv, and_255_eq_mod]
  have hall : bytesOf [sid, 0x03, 1 * 2, v / 256, v % 256] =
      some [sid, 0x03, 1 * 2, v / 256, v % 256] := by
    unfold bytesOf
    rw [if_pos]
    simp only [List.all_cons, List.all_nil, Bool.and_eq_true, decide_eq_true_eq]
    refine ⟨hsid, by omega, by omega, by omega, by omega, trivial⟩
  have hres2 : handle_read_holding_registers
      ((frame_with_crc [sid, 0x03, a / 256, a % 256, 0, 1]).getD 0 0)
      (frame_with_crc [sid, 0x03, a / 256, a % 256, 0, 1])
      { s with holding_registers := dictInsert s.holding_registers a v } =
      ⟨some (frame_with_crc [sid, 0x03, 1 * 2, v / 256, v % 256]),
       { s with holding_registers := dictInsert s.holding_registers a v }, []⟩ := by
    unfold handle_read_holding_registers
    rw [if_neg (by omega)]
    dsimp only
    rw [hr0, hr2, hr3, hr4, hr5, byte_pair_recompose a]
    rw [if_neg (by norm_num)]
    show (match bytesOf ([sid, 0x03, 1 * 2] ++
        read_registers_data (dictInsert s.holding_registers a v) a (0 <<< 8 ||| 1)) with
      | some response_bytes => (⟨some (frame_with_crc response_bytes), _, []⟩ : HandlerResult)
      | none => ⟨none, _, send_exception_response sid 0x03 0x04⟩) = _
    rw [show (0 : Nat) <<< 8 ||| 1 = 1 by rfl, hdata, show ([sid, 0x03, 1 * 2] ++
      [v / 256, v % 256] : List Nat) = [sid, 0x03, 1 * 2, v / 256, v % 256] by rfl, hall]
  have hdisp2 : dispatch_function
      ((frame_with_crc [sid, 0x03, a / 256, a % 256, 0, 1]).getD 1 0)
      ((frame_with_crc [sid, 0x03, a / 256, a % 256, 0, 1]).getD 0 0)
      (frame_with_crc [sid, 0x03, a / 256, a % 256, 0, 1])
      { s with holding_registers := dictInsert s.holding_registers a v } =
      some ⟨some (frame_with_crc [sid, 0x03, 1 * 2, v / 256, v % 256]),
       { s with holding_registers := dictInsert s.holding_registers a v }, []⟩ := by
    rw [hr1]
    show some (handle_read_holding_registers _ _ _) = _
    rw [hres2]
  rw [process_request_eq _ now2 _ _ _ (by omega) hslave2 hrcrc hdisp2]
  dsimp only
  rw [if_neg (by rw [frame_with_crc_length]; omega)]
  rfl

/-- Witness for `write_then_read_roundtrip`: write 0x1234 to register 5 of
`demo_state`'s slave 1, then read it back. -/
theorem write_then_read_roundtrip_witness :
    1 < 256 ∧ 5 < 65536 ∧ 0x1234 < 65536 ∧
    dictLookup demo_state.slaves 1 = some demo_slave ∧
    (process_request
        (process_request demo_state 0
          (frame_with_crc [1, 0x06, 5 / 256, 5 % 256, 0x1234 / 256, 0x1234 % 256])).state
        0
        (frame_with_crc [1, 0x03, 5 / 256, 5 % 256, 0, 1])).sent =
      [frame_with_crc [1, 0x03, 2, 0x1234 / 256, 0x1234 % 256]] :=
  ⟨by decide, by decide, by decide, by decide,
    write_then_read_roundtrip demo_state 0 0 1 5 0x1234 demo_slave
      (by decide) (by decide) (by decide) (by decide)⟩

theorem bytesOf_all_lt {l : List Nat} (h : ∀ b ∈ l, b < 256) :
    bytesOf l = some l := by
  unfold bytesOf
  rw [if_pos]
  rw [List.all_eq_true]
  intro b hb
  exact decide_eq_true (h b hb)

theorem normalize_file_data_eq (fd : List Nat) (rl : Nat) :
    normalize_file_data fd rl =
      fd.take (rl * 2) ++ List.replicate (rl * 2 - fd.length) 0x00 := by
  unfold normalize_file_data
  split
  · next h =>
    rw [Nat.sub_eq_zero_of_le (by omega), List.replicate_zero, List.append_nil]
  split
  · next h1 h2 =>
    rw [List.take_of_length_le (by omega)]
  · next h1 h2 =>
    rw [List.take_of_length_le (by omega), Nat.sub_eq_zero_of_le (by omega),
      List.replicate_zero, List.append_nil]

theorem normalize_file_data_length (fd : List Nat) (rl : Nat) :
    (normalize_file_data fd rl).length = rl * 2 := by
  rw [normalize_file_data_eq]
  simp only [List.length_append, List.length_take, List.length_replicate]
  omega

theorem normalize_file_data_mem_lt (fd : List Nat) (rl : Nat)
    (hall : ∀ b ∈ fd, b < 256) : ∀ b ∈ normalize_file_data fd rl, b < 256 := by
  rw [normalize_file_data_eq]
  intro b hb
  rcases List.mem_append.mp hb with hb | hb
  · exact hall b (List.take_subset _ _ hb)
  · rw [List.eq_of_mem_replicate hb]
    norm_num

/-- Claim C7 (amended).  For a CRC-valid read-file-record request (function
0x14) to a configured slave: frames shorter than 10 bytes (the framer
produces them for `byte_count ≤ 4`) are dropped silently by the `len < 10`
guard — no exception is sent even though `byte_count ≠ 7`; for frames of
at least 10 bytes, `byte_count ≠ 7` or `reference_type ≠ 6` draws
exception 0x03; when the record exists and `record_length ≤ 126`, the
stored bytes are normalized to exactly `2 × record_length` bytes by
truncation or zero-padding and the body carries `file_response_length =
len(data) + 1` and `response_data_length = file_response_length + 1`
before the data; when the record exists but `record_length ≥ 127`,
`response_data_length` no longer fits in one byte, `bytes()` raises, and
exception 0x04 is sent instead; when the record is absent the body is
`response_data_length = 2, file_response_length = 1`, reference type, no
data. -/
theorem read_file_records_spec (st : ServerState) (now : Nat) (req : List Nat)
    (s : SlaveConfig)
    (hlen : 4 ≤ req.length)
    (hbytes : ∀ b ∈ req, b < 256)
    (hfc : req.getD 1 0 = 0x14)
    (hslave : dictLookup st.slaves (req.getD 0 0) = some s)
    (hcrc : validate_crc req = true) :
    (req.length < 10 → (process_request st now req).sent = []) ∧
    (10 ≤ req.length → req.getD 2 0 ≠ 7 ∨ req.getD 3 0 ≠ 6 →
      (process_request st now req).sent =
        [frame_with_crc [req.getD 0 0, 0x94, 0x03]]) ∧
    (10 ≤ req.length → req.getD 2 0 = 7 → req.getD 3 0 = 6 →
      ∀ stored, file_record_lookup s.file_records
          ((req.getD 4 0) <<< 8 ||| req.getD 5 0)
          ((req.getD 6 0) <<< 8 ||| req.getD 7 0) = some stored →
        (∀ b ∈ stored, b < 256) →
        ((req.getD 8 0) <<< 8 ||| req.getD 9 0 ≤ 126 →
          (normalize_file_data stored ((req.getD 8 0) <<< 8 ||| req.getD 9 0)).length =
            ((req.getD 8 0) <<< 8 ||| req.getD 9 0) * 2 ∧
          (process_request st now req).sent =
            [frame_with_crc ([req.getD 0 0, 0x14,
              (normalize_file_data stored ((req.getD 8 0) <<< 8 ||| req.getD 9 0)).length + 2,
              (normalize_file_data stored ((req.getD 8 0) <<< 8 ||| req.getD 9 0)).length + 1,
              6] ++ normalize_file_data stored ((req.getD 8 0) <<< 8 ||| req.getD 9 0))]) ∧
        (127 ≤ (req.getD 8 0) <<< 8 ||| req.getD 9 0 →
          (process_request st now req).sent =
            [frame_with_crc [req.getD 0 0, 0x94, 0x04]])) ∧
    (10 ≤ req.length → req.getD 2 0 = 7 → req.getD 3 0 = 6 →
      file_record_lookup s.file_records ((req.getD 4 0) <<< 8 ||| req.getD 5 0)
        ((req.getD 6 0) <<< 8 ||| req.getD 7 0) = none →
      (process_request st now req).sent =
        [frame_with_crc [req.getD 0 0, 0x14, 2, 1, 6]]) := by
  have hsid : req.getD 0 0 < 256 := getD_lt_256 hbytes 0 (by omega)
  have hlen4 : 4 ≤ req.length := hlen
  refine ⟨?_, ?_, ?_, ?_⟩
  · intro hshort
    have hres0 : handle_read_file_records (req.getD 0 0) req s = ⟨none, s, []⟩ := by
      unfold handle_read_file_records
      rw [if_pos hshort]
    have hdisp0 : dispatch_function (req.getD 1 0) (req.getD 0 0) req s =
        some ⟨none, s, []⟩ := by
      rw [hfc]
      show some (handle_read_file_records (req.getD 0 0) req s) = _
      rw [hres0]
    rw [process_request_eq st now req s _ hlen4 hslave hcrc hdisp0]
    rfl
  · intro h10len hbad
    have h10 : ¬ req.length < 10 := by omega
    have hres : handle_read_file_records (req.getD 0 0) req s =
        ⟨none, s, send_exception_response (req.getD 0 0) 0x14 0x03⟩ := by
      unfold handle_read_file_records
      rw [if_neg h10]
      try dsimp only
      by_cases hbc : req.getD 2 0 ≠ 7
      · rw [if_pos hbc]
      · rw [if_neg hbc]
        try dsimp only
        rw [if_pos (by omega)]
    have hdisp : dispatch_function (req.getD 1 0) (req.getD 0 0) req s =
        some ⟨none, s, send_exception_response (req.getD 0 0) 0x14 0x03⟩ := by
      rw [hfc]
      show some (handle_read_file_records (req.getD 0 0) req s) = _
      rw [hres]
    rw [process_request_eq st now req s _ hlen4 hslave hcrc hdisp]
    try dsimp only
    rw [send_exception_response_eq _ _ _ hsid (by omega) (by omega)]
    rfl
  · intro h10len hbc7 hrt6 stored hrec hstored
    have h10 : ¬ req.length < 10 := by omega
    have hnl := normalize_file_data_length stored ((req.getD 8 0) <<< 8 ||| req.getD 9 0)
    have hmem := normalize_file_data_mem_lt stored ((req.getD 8 0) <<< 8 ||| req.getD 9 0) hstored
    constructor
    · intro hrl
      have hba : bytesOf ([req.getD 0 0, 0x14,
          (normalize_file_data stored ((req.getD 8 0) <<< 8 ||| req.getD 9 0)).length + 1 + 1,
          (normalize_file_data stored ((req.getD 8 0) <<< 8 ||| req.getD 9 0)).length + 1,
          6] ++ normalize_file_data stored ((req.getD 8 0) <<< 8 ||| req.getD 9 0)) =
          some ([req.getD 0 0, 0x14,
          (normalize_file_data stored ((req.getD 8 0) <<< 8 ||| req.getD 9 0)).length + 1 + 1,
          (normalize_file_data stored ((req.getD 8 0) <<< 8 ||| req.getD 9 0)).length + 1,
          6] ++ normalize_file_data stored ((req.getD 8 0) <<< 8 ||| req.getD 9 0)) := by
        apply bytesOf_all_lt
        intro b hb
        rcases List.mem_append.mp hb with hb | hb
        · simp only [List.mem_cons, List.not_mem_nil, or_false] at hb
          rcases hb with rfl | rfl | rfl | rfl | rfl <;> omega
        · exact hmem b hb
      have hres : handle_read_file_records (req.getD 0 0) req s =
          ⟨some (frame_with_crc ([req.getD 0 0, 0x14,
            (normalize_file_data stored ((req.getD 8 0) <<< 8 ||| req.getD 9 0)).length + 1 + 1,
            (normalize_file_data stored ((req.getD 8 0) <<< 8 ||| req.getD 9 0)).length + 1,
            6] ++ normalize_file_data stored ((req.getD 8 0) <<< 8 ||| req.getD 9 0))), s, []⟩ := by
        unfold handle_read_file_records
        rw [if_neg h10]
        try dsimp only
        rw [if_neg (by omega)]
        try dsimp only
        rw [if_neg (by omega), hrt6]
        simp only [hrec]
        try dsimp only
        rw [hba]
      have hdisp : dispatch_function (req.getD 1 0) (req.getD 0 0) req s =
          some ⟨some (frame_with_crc ([req.getD 0 0, 0x14,
            (normalize_file_data stored ((req.getD 8 0) <<< 8 ||| req.getD 9 0)).length + 1 + 1,
            (normalize_file_data stored ((req.getD 8 0) <<< 8 ||| req.getD 9 0)).length + 1,
            6] ++ normalize_file_data stored ((req.getD 8 0) <<< 8 ||| req.getD 9 0))), s, []⟩ := by
        rw [hfc]
        show some (handle_read_file_records (req.getD 0 0) req s) = _
        rw [hres]
      refine ⟨hnl, ?_⟩
      rw [process_request_eq st now req s _ hlen4 hslave hcrc hdisp]
      try dsimp only
      rw [if_neg (by rw [frame_with_crc_length]; simp)]
      rfl
    · intro hrl
      have hbn : bytesOf ([req.getD 0 0, 0x14,
          (normalize_file_data stored ((req.getD 8 0) <<< 8 ||| req.getD 9 0)).length + 1 + 1,
          (normalize_file_data stored ((req.getD 8 0) <<< 8 ||| req.getD 9 0)).length + 1,
          6] ++ normalize_file_data stored ((req.getD 8 0) <<< 8 ||| req.getD 9 0)) = none := by
        unfold bytesOf
        rw [if_neg]
        intro hcond
        rw [List.all_eq_true] at hcond
        have h2 := hcond
          ((normalize_file_data stored ((req.getD 8 0) <<< 8 ||| req.getD 9 0)).length + 1 + 1)
          (by simp)
        rw [decide_eq_true_eq] at h2
        omega
      have hres : handle_read_file_records (req.getD 0 0) req s =
          ⟨none, s, send_exception_response (req.getD 0 0) 0x14 0x04⟩ := by
        unfold handle_read_file_records
        rw [if_neg h10]
        try dsimp only
        rw [if_neg (by omega)]
        try dsimp only
        rw [if_neg (by omega), hrt6]
        simp only [hrec]
        try dsimp only
        rw [hbn]
      have hdisp : dispatch_function (req.getD 1 0) (req.getD 0 0) req s =
          some ⟨none, s, send_exception_response (req.getD 0 0) 0x14 0x04⟩ := by
        rw [hfc]
        show some (handle_read_file_records (req.getD 0 0) req s) = _
        rw [hres]
      rw [process_request_eq st now req s _ hlen4 hslave hcrc hdisp]
      try dsimp only
      rw [send_exception_response_eq _ _ _ hsid (by omega) (by omega)]
      rfl
  · intro h10len hbc7 hrt6 hrec
    have h10 : ¬ req.length < 10 := by omega
    have hba : bytesOf [req.getD 0 0, 0x14, 2, 1, 6] =
        some [req.getD 0 0, 0x14, 2, 1, 6] := by
      apply bytesOf_all_lt
      intro b hb
      simp only [List.mem_cons, List.not_mem_nil, or_false] at hb
      rcases hb with rfl | rfl | rfl | rfl | rfl <;> omega
    have hres : handle_read_file_records (req.getD 0 0) req s =
        ⟨some (frame_with_crc [req.getD 0 0, 0x14, 2, 1, 6]), s, []⟩ := by
      unfold handle_read_file_records
      rw [if_neg h10]
      try dsimp only
      rw [if_neg (by omega)]
      try dsimp only
      rw [if_neg (by omega), hrt6]
      simp only [hrec]
      try dsimp only
      rw [hba]
    have hdisp : dispatch_function (req.getD 1 0) (req.getD 0 0) req s =
        some ⟨some (frame_with_crc [req.getD 0 0, 0x14, 2, 1, 6]), s, []⟩ := by
      rw [hfc]
      show some (handle_read_file_records (req.getD 0 0) req s) = _
      rw [hres]
    rw [process_request_eq st now req s _ hlen4 hslave hcrc hdisp]
    try dsimp only
    rw [if_neg (by rw [frame_with_crc_length]; simp)]
    rfl

/-- Counterexample to claim C7 as stated, failing at two concrete inputs.
First, slave 1 of `demo_state` stores record (1,0) = "AB" and the
CRC-valid request asks for it with `record_length = 127`: the claimed
response (`file_response_length = len(data) + 1 = 255`,
`response_data_length = 256`) cannot be built — `bytes()` rejects the
value 256 — so the server sends exception 0x04 instead of the claimed
record payload.  Second, the CRC-valid 8-byte frame with `byte_count = 3`
(the framer emits it as 5 + byte_count bytes) has `byte_count ≠ 7`, yet
the `len < 10` guard drops it silently instead of answering with the
claimed exception 0x03. -/
theorem read_file_records_claim_counterexample :
    validate_crc (frame_with_crc [1, 0x14, 7, 6, 0, 1, 0, 0, 0, 127]) = true ∧
    file_record_lookup demo_slave.file_records 1 0 = some [65, 66] ∧
    (process_request demo_state 0
      (frame_with_crc [1, 0x14, 7, 6, 0, 1, 0, 0, 0, 127])).sent =
      [frame_with_crc [1, 0x94, 0x04]] ∧
    validate_crc (frame_with_crc [1, 0x14, 3, 6, 0, 1]) = true ∧
    (frame_with_crc [1, 0x14, 3, 6, 0, 1]).length = 8 ∧
    (frame_with_crc [1, 0x14, 3, 6, 0, 1]).getD 2 0 ≠ 7 ∧
    (process_request demo_state 0 (frame_with_crc [1, 0x14, 3, 6, 0, 1])).sent =
      [] := by decide

/-- Witness for `read_file_records_spec`: reading record (1,0) of slave 1
with `record_length = 4`; the two stored bytes are padded to 8. -/
theorem read_file_records_spec_witness :
    10 ≤ (frame_with_crc [1, 0x14, 7, 6, 0, 1, 0, 0, 0, 4]).length ∧
    (∀ b ∈ frame_with_crc [1, 0x14, 7, 6, 0, 1, 0, 0, 0, 4], b < 256) ∧
    (frame_with_crc [1, 0x14, 7, 6, 0, 1, 0, 0, 0, 4]).getD 1 0 = 0x14 ∧
    dictLookup demo_state.slaves
      ((frame_with_crc [1, 0x14, 7, 6, 0, 1, 0, 0, 0, 4]).getD 0 0) = some demo_slave ∧
    validate_crc (frame_with_crc [1, 0x14, 7, 6, 0, 1, 0, 0, 0, 4]) = true ∧
    (normalize_file_data [65, 66]
        (((frame_with_crc [1, 0x14, 7, 6, 0, 1, 0, 0, 0, 4]).getD 8 0) <<< 8 |||
          (frame_with_crc [1, 0x14, 7, 6, 0, 1, 0, 0, 0, 4]).getD 9 0)).length =
      (((frame_with_crc [1, 0x14, 7, 6, 0, 1, 0, 0, 0, 4]).getD 8 0) <<< 8 |||
        (frame_with_crc [1, 0x14, 7, 6, 0, 1, 0, 0, 0, 4]).getD 9 0) * 2 ∧
    (process_request demo_state 0 (frame_with_crc [1, 0x14, 7, 6, 0, 1, 0, 0, 0, 4])).sent =
      [frame_with_crc ([(frame_with_crc [1, 0x14, 7, 6, 0, 1, 0, 0, 0, 4]).getD 0 0, 0x14,
        (normalize_file_data [65, 66]
          (((frame_with_crc [1, 0x14, 7, 6, 0, 1, 0, 0, 0, 4]).getD 8 0) <<< 8 |||
            (frame_with_crc [1, 0x14, 7, 6, 0, 1, 0, 0, 0, 4]).getD 9 0)).length + 2,
        (normalize_file_data [65, 66]
          (((frame_with_crc [1, 0x14, 7, 6, 0, 1, 0, 0, 0, 4]).getD 8 0) <<< 8 |||
            (frame_with_crc [1, 0x14, 7, 6, 0, 1, 0, 0, 0, 4]).getD 9 0)).length + 1,
        6] ++ normalize_file_data [65, 66]
          (((frame_with_crc [1, 0x14, 7, 6, 0, 1, 0, 0, 0, 4]).getD 8 0) <<< 8 |||
            (frame_with_crc [1, 0x14, 7, 6, 0, 1, 0, 0, 0, 4]).getD 9 0))] :=
  ⟨by decide, by decide, by decide, by decide, by decide,
    ((read_file_records_spec demo_state 0 (frame_with_crc [1, 0x14, 7, 6, 0, 1, 0, 0, 0, 4])
        demo_slave (by decide) (by decide) (by decide) (by decide) (by decide)).2.2.1
      (by decide) (by decide) (by decide) [65, 66] (by decide) (by decide)).1 (by decide)⟩

theorem write_coils_go_spec (coil_data : List Nat) (start : Nat) :
    ∀ (is : List Nat) (coils : List (Nat × Bool)),
      (∀ i ∈ is, i / 8 < coil_data.length) →
      (write_coils_go coil_data start coils is).2 = true ∧
      ∀ addr, (∀ i ∈ is, addr ≠ start + i) →
        dictLookup (write_coils_go coil_data start coils is).1 addr =
          dictLookup coils addr := by
  intro is
  induction is with
  | nil =>
    intro coils h
    exact ⟨rfl, fun addr _ => rfl⟩
  | cons i rest ih =>
    intro coils h
    have hi : i / 8 < coil_data.length := h i (by simp)
    simp only [write_coils_go, List.getElem?_eq_getElem hi]
    obtain ⟨ht, hl⟩ := ih
      (dictInsert coils (start + i)
        (coil_data[i / 8] &&& (1 <<< (i % 8)) != 0))
      (fun j hj => h j (List.mem_cons_of_mem _ hj))
    refine ⟨ht, ?_⟩
    intro addr haddr
    rw [hl addr (fun j hj => haddr j (List.mem_cons_of_mem _ hj))]
    exact dictLookup_insert_ne _ _ _ _ (haddr i (by simp))

theorem write_coils_go_bits_only (cd1 cd2 : List Nat) (start : Nat) :
    ∀ (is : List Nat) (coils : List (Nat × Bool)),
      (∀ i ∈ is, i / 8 < cd1.length ∧ i / 8 < cd2.length ∧
        cd1.getD (i / 8) 0 &&& (1 <<< (i % 8)) =
          cd2.getD (i / 8) 0 &&& (1 <<< (i % 8))) →
      write_coils_go cd1 start coils is = write_coils_go cd2 start coils is := by
  intro is
  induction is with
  | nil =>
    intro coils h
    rfl
  | cons i rest ih =>
    intro coils h
    obtain ⟨h1, h2, hbit⟩ := h i (by simp)
    have hg1 : cd1.getD (i / 8) 0 = cd1[i / 8] := by
      rw [List.getD_eq_getElem?_getD, List.getElem?_eq_getElem h1]
      rfl
    have hg2 : cd2.getD (i / 8) 0 = cd2[i / 8] := by
      rw [List.getD_eq_getElem?_getD, List.getElem?_eq_getElem h2]
      rfl
    rw [hg1, hg2] at hbit
    simp only [write_coils_go, List.getElem?_eq_getElem h1,
      List.getElem?_eq_getElem h2, hbit]
    exact ih _ (fun j hj => h j (List.mem_cons_of_mem _ hj))

/-- Claim C9.  A successful write-multiple-coils request (function 0x0F,
well-formed quantity/byte-count, proper frame length) modifies only the
coils at `start .. start+q-1` of the addressed slave: every other coil
address reads as before, the slave's four other sub-stores are untouched
(the updated slave differs from `s` only in its `coils` field), every
other slave is untouched, and the written coils depend only on payload
bits at positions below `q` — payloads agreeing on those bits produce the
identical coil store. -/
theorem write_multiple_coils_frame_effect (st : ServerState) (now : Nat)
    (req : List Nat) (s : SlaveConfig)
    (hbytes : ∀ b ∈ req, b < 256)
    (hfc : req.getD 1 0 = 0x0F)
    (hslave : dictLookup st.slaves (req.getD 0 0) = some s)
    (hcrc : validate_crc req = true)
    (hlen : req.length = 9 + req.getD 6 0)
    (hq1 : 1 ≤ (req.getD 4 0) <<< 8 ||| req.getD 5 0)
    (hq2 : (req.getD 4 0) <<< 8 ||| req.getD 5 0 ≤ 1968)
    (hbc : req.getD 6 0 = (((req.getD 4 0) <<< 8 ||| req.getD 5 0) + 7) / 8) :
    (process_request st now req).sent =
      [frame_with_crc ([req.getD 0 0, 0x0F] ++ (req.drop 2).take 4)] ∧
    (∀ k, k ≠ req.getD 0 0 →
      dictLookup (process_request st now req).state.slaves k =
        dictLookup st.slaves k) ∧
    ∃ coils',
      (process_request st now req).state.slaves =
        dictInsert st.slaves (req.getD 0 0) { s with coils := coils' } ∧
      (∀ addr, addr < (req.getD 2 0) <<< 8 ||| req.getD 3 0 ∨
          ((req.getD 2 0) <<< 8 ||| req.getD 3 0) +
            ((req.getD 4 0) <<< 8 ||| req.getD 5 0) ≤ addr →
        dictLookup coils' addr = dictLookup s.coils addr) ∧
      (∀ cd2 : List Nat, cd2.length = req.getD 6 0 →
        (∀ i, i < (req.getD 4 0) <<< 8 ||| req.getD 5 0 →
          cd2.getD (i / 8) 0 &&& (1 <<< (i % 8)) =
            ((req.drop 7).take (req.getD 6 0)).getD (i / 8) 0 &&& (1 <<< (i % 8))) →
        (write_coils_go cd2 ((req.getD 2 0) <<< 8 ||| req.getD 3 0) s.coils
          (List.range ((req.getD 4 0) <<< 8 ||| req.getD 5 0))).1 = coils') := by
  have hcdlen : ((req.drop 7).take (req.getD 6 0)).length = req.getD 6 0 := by
    rw [List.length_take, List.length_drop]
    omega
  have hinb : ∀ i ∈ List.range ((req.getD 4 0) <<< 8 ||| req.getD 5 0),
      i / 8 < ((req.drop 7).take (req.getD 6 0)).length := by
    intro i hi
    rw [List.mem_range] at hi
    rw [hcdlen, hbc]
    omega
  obtain ⟨hok, hout⟩ := write_coils_go_spec ((req.drop 7).take (req.getD 6 0))
    ((req.getD 2 0) <<< 8 ||| req.getD 3 0)
    (List.range ((req.getD 4 0) <<< 8 ||| req.getD 5 0)) s.coils hinb
  rcases hgo : write_coils_go ((req.drop 7).take (req.getD 6 0))
      ((req.getD 2 0) <<< 8 ||| req.getD 3 0) s.coils
      (List.range ((req.getD 4 0) <<< 8 ||| req.getD 5 0)) with ⟨coils', ok⟩
  rw [hgo] at hok hout
  subst hok
  have hba : bytesOf ([req.getD 0 0, 0x0F] ++ (req.drop 2).take 4) =
      some ([req.getD 0 0, 0x0F] ++ (req.drop 2).take 4) := by
    apply bytesOf_all_lt
    intro b hb
    rcases List.mem_append.mp hb with hb | hb
    · simp only [List.mem_cons, List.not_mem_nil, or_false] at hb
      have hsid := getD_lt_256 hbytes 0 (by omega)
      rcases hb with rfl | rfl <;> omega
    · exact hbytes b (List.drop_subset _ _ (List.take_subset _ _ hb))
  have hres : handle_write_multiple_coils (req.getD 0 0) req s =
      ⟨some (frame_with_crc ([req.getD 0 0, 0x0F] ++ (req.drop 2).take 4)),
       { s with coils := coils' }, []⟩ := by
    unfold handle_write_multiple_coils
    rw [if_neg (by omega)]
    try dsimp only
    rw [if_neg (by omega)]
    try dsimp only
    rw [hgo]
    try dsimp only
    rw [hba]
  have hdisp : dispatch_function (req.getD 1 0) (req.getD 0 0) req s =
      some ⟨some (frame_with_crc ([req.getD 0 0, 0x0F] ++ (req.drop 2).take 4)),
       { s with coils := coils' }, []⟩ := by
    rw [hfc]
    show some (handle_write_multiple_coils (req.getD 0 0) req s) = _
    rw [hres]
  rw [process_request_eq st now req s _ (by omega) hslave hcrc hdisp]
  dsimp only
  rw [if_neg (by rw [frame_with_crc_length]; simp)]
  refine ⟨rfl, ?_, coils', rfl, ?_, ?_⟩
  · intro k hk
    exact dictLookup_insert_ne _ _ _ _ hk
  · intro addr haddr
    exact hout addr (by
      intro i hi
      rw [List.mem_range] at hi
      omega)
  · intro cd2 hcd2len hcd2
    have heq := write_coils_go_bits_only cd2 ((req.drop 7).take (req.getD 6 0))
      ((req.getD 2 0) <<< 8 ||| req.getD 3 0)
      (List.range ((req.getD 4 0) <<< 8 ||| req.getD 5 0)) s.coils (by
        intro i hi
        rw [List.mem_range] at hi
        refine ⟨by rw [hcd2len, hbc]; omega, by rw [hcdlen, hbc]; omega, hcd2 i hi⟩)
    rw [heq, hgo]

/-- A concrete write-multiple-coils request: 10 coils from address 3 of
slave 1, payload bytes `AA 01`, with its genuine CRC. -/
def coils_req : List Nat := frame_with_crc [1, 0x0F, 0, 3, 0, 10, 2, 0xAA, 0x01]

/-- Witness for `write_multiple_coils_frame_effect` at `coils_req` against
`demo_state`. -/
theorem write_multiple_coils_frame_effect_witness :
    (∀ b ∈ coils_req, b < 256) ∧
    coils_req.getD 1 0 = 0x0F ∧
    dictLookup demo_state.slaves (coils_req.getD 0 0) = some demo_slave ∧
    validate_crc coils_req = true ∧
    coils_req.length = 9 + coils_req.getD 6 0 ∧
    1 ≤ (coils_req.getD 4 0) <<< 8 ||| coils_req.getD 5 0 ∧
    (coils_req.getD 4 0) <<< 8 ||| coils_req.getD 5 0 ≤ 1968 ∧
    coils_req.getD 6 0 = (((coils_req.getD 4 0) <<< 8 ||| coils_req.getD 5 0) + 7) / 8 ∧
    ((process_request demo_state 0 coils_req).sent =
      [frame_with_crc ([coils_req.getD 0 0, 0x0F] ++ (coils_req.drop 2).take 4)] ∧
    (∀ k, k ≠ coils_req.getD 0 0 →
      dictLookup (process_request demo_state 0 coils_req).state.slaves k =
        dictLookup demo_state.slaves k) ∧
    ∃ coils',
      (process_request demo_state 0 coils_req).state.slaves =
        dictInsert demo_state.slaves (coils_req.getD 0 0)
          { demo_slave with coils := coils' } ∧
      (∀ addr, addr < (coils_req.getD 2 0) <<< 8 ||| coils_req.getD 3 0 ∨
          ((coils_req.getD 2 0) <<< 8 ||| coils_req.getD 3 0) +
            ((coils_req.getD 4 0) <<< 8 ||| coils_req.getD 5 0) ≤ addr →
        dictLookup coils' addr = dictLookup demo_slave.coils addr) ∧
      (∀ cd2 : List Nat, cd2.length = coils_req.getD 6 0 →
        (∀ i, i < (coils_req.getD 4 0) <<< 8 ||| coils_req.getD 5 0 →
          cd2.getD (i / 8) 0 &&& (1 <<< (i % 8)) =
            ((coils_req.drop 7).take (coils_req.getD 6 0)).getD (i / 8) 0 &&&
              (1 <<< (i % 8))) →
        (write_coils_go cd2 ((coils_req.getD 2 0) <<< 8 ||| coils_req.getD 3 0)
          demo_slave.coils
          (List.range ((coils_req.getD 4 0) <<< 8 ||| coils_req.getD 5 0))).1 =
          coils')) :=
  ⟨by decide, by decide, by decide, by decide, by decide, by decide, by decide, by decide,
    write_multiple_coils_frame_effect demo_state 0 coils_req demo_slave
      (by decide) (by decide) (by decide) (by decide) (by decide) (by decide)
      (by decide) (by decide)⟩

theorem read_registers_data_mem_lt (regs : List (Nat × Nat)) (start q : Nat) :
    ∀ b ∈ read_registers_data regs start q, b < 256 := by
  intro b hb
  unfold read_registers_data at hb
  rw [List.mem_flatMap] at hb
  obtain ⟨i, hi, hb⟩ := hb
  rcases hlook : dictLookup regs (start + i) with - | v
  · rw [hlook] at hb
    simp only [List.mem_cons, List.not_mem_nil, or_false] at hb
    rcases hb with rfl | rfl <;> norm_num
  · rw [hlook] at hb
    simp only [List.mem_cons, List.not_mem_nil, or_false] at hb
    rcases hb with rfl | rfl <;>
      · rw [and_255_eq_mod]
        exact Nat.mod_lt _ (by norm_num)

theorem read_bits_fold_lt (bits : List (Nat × Bool)) (start q base : Nat) :
    ∀ (l : List Nat) (v : Nat), v < 256 → (∀ i ∈ l, i < 8) →
      (l.foldl (fun byte_value bit_idx =>
        if start + base * 8 + bit_idx < start + q ∧
            dictLookup bits (start + base * 8 + bit_idx) = some true then
          byte_value ||| (1 <<< bit_idx)
        else byte_value) v) < 256 := by
  intro l
  induction l with
  | nil =>
    intro v hv _
    exact hv
  | cons i rest ih =>
    intro v hv hl
    have hi : i < 8 := hl i (by simp)
    have hstep : (if start + base * 8 + i < start + q ∧
        dictLookup bits (start + base * 8 + i) = some true then
        v ||| (1 <<< i) else v) < 256 := by
      split
      · have h1 : (1 <<< i) < 2 ^ 8 := by
          interval_cases i <;> decide
        have h2 : v < 2 ^ 8 := by omega
        have h3 := Nat.or_lt_two_pow h2 h1
        omega
      · exact hv
    dsimp only [List.foldl]
    exact ih _ hstep (fun j hj => hl j (List.mem_cons_of_mem _ hj))

theorem read_bits_data_mem_lt (bits : List (Nat × Bool)) (start q : Nat) :
    ∀ b ∈ read_bits_data bits start q, b < 256 := by
  intro b hb
  unfold read_bits_data at hb
  rw [List.mem_map] at hb
  obtain ⟨byte_idx, -, rfl⟩ := hb
  exact read_bits_fold_lt bits start q byte_idx (List.range 8) 0 (by norm_num)
    (fun i hi => List.mem_range.mp hi)

/-- With an empty coil or discrete-input store, every packed data byte is
zero: absent addresses contribute `false` bits. -/
theorem read_bits_data_empty (start q : Nat) :
    read_bits_data ([] : List (Nat × Bool)) start q =
      List.replicate ((q + 7) / 8) 0 := by
  unfold read_bits_data
  have hfold : ∀ (byte_idx : Nat) (l : List Nat) (v : Nat),
      (l.foldl (fun byte_value bit_idx =>
        if start + byte_idx * 8 + bit_idx < start + q ∧
            dictLookup ([] : List (Nat × Bool)) (start + byte_idx * 8 + bit_idx) =
              some true then
          byte_value ||| (1 <<< bit_idx)
        else byte_value) v) = v := by
    intro byte_idx l
    induction l with
    | nil =>
      intro v
      rfl
    | cons j rest ih =>
      intro v
      dsimp only [List.foldl]
      rw [if_neg (by simp [dictLookup])]
      exact ih v
  rw [List.map_congr_left (fun i _ => hfold i (List.range 8) 0)]
  rw [List.map_const', List.length_range]

/-- Claim C10.  The dispatcher never emits exception code 0x02 (Illegal
Data Address): every frame it writes whose function-code byte has bit 7
set carries a code other than 0x02; a read-holding (0x03), read-coils
(0x01) or read-discrete-inputs (0x02) request with any start address and a
valid quantity — including ranges running past 65535 — is answered
normally, never rejected; and every address absent from the sub-store
contributes the zero register pair (`read_registers_data`) or a false bit
(`read_bits_data`) to the response, including addresses at or above 65536
(the concrete evaluations read the absent address 65536). -/
theorem no_illegal_data_address :
    (∀ (st : ServerState) (now : Nat) (req f : List Nat),
      f ∈ (process_request st now req).sent →
      0x80 ≤ f.getD 1 0 → f.getD 2 0 ≠ 0x02) ∧
    (∀ (st : ServerState) (now : Nat) (req : List Nat) (s : SlaveConfig),
      req.length = 8 → (∀ b ∈ req, b < 256) →
      req.getD 1 0 = 0x03 →
      dictLookup st.slaves (req.getD 0 0) = some s →
      validate_crc req = true →
      1 ≤ (req.getD 4 0) <<< 8 ||| req.getD 5 0 →
      (req.getD 4 0) <<< 8 ||| req.getD 5 0 ≤ 125 →
      (process_request st now req).sent =
        [frame_with_crc ([req.getD 0 0, 0x03,
          ((req.getD 4 0) <<< 8 ||| req.getD 5 0) * 2] ++
          read_registers_data s.holding_registers
            ((req.getD 2 0) <<< 8 ||| req.getD 3 0)
            ((req.getD 4 0) <<< 8 ||| req.getD 5 0))]) ∧
    read_registers_data [(65535, 7)] 65535 2 = [0, 7, 0, 0] ∧
    (∀ (st : ServerState) (now : Nat) (req : List Nat) (s : SlaveConfig),
      req.length = 8 → (∀ b ∈ req, b < 256) →
      req.getD 1 0 = 0x01 →
      dictLookup st.slaves (req.getD 0 0) = some s →
      validate_crc req = true →
      1 ≤ (req.getD 4 0) <<< 8 ||| req.getD 5 0 →
      (req.getD 4 0) <<< 8 ||| req.getD 5 0 ≤ 2000 →
      (process_request st now req).sent =
        [frame_with_crc ([req.getD 0 0, 0x01,
          (((req.getD 4 0) <<< 8 ||| req.getD 5 0) + 7) / 8] ++
          read_bits_data s.coils
            ((req.getD 2 0) <<< 8 ||| req.getD 3 0)
            ((req.getD 4 0) <<< 8 ||| req.getD 5 0))]) ∧
    (∀ (st : ServerState) (now : Nat) (req : List Nat) (s : SlaveConfig),
      req.length = 8 → (∀ b ∈ req, b < 256) →
      req.getD 1 0 = 0x02 →
      dictLookup st.slaves (req.getD 0 0) = some s →
      validate_crc req = true →
      1 ≤ (req.getD 4 0) <<< 8 ||| req.getD 5 0 →
      (req.getD 4 0) <<< 8 ||| req.getD 5 0 ≤ 2000 →
      (process_request st now req).sent =
        [frame_with_crc ([req.getD 0 0, 0x02,
          (((req.getD 4 0) <<< 8 ||| req.getD 5 0) + 7) / 8] ++
          read_bits_data s.discrete_inputs
            ((req.getD 2 0) <<< 8 ||| req.getD 3 0)
            ((req.getD 4 0) <<< 8 ||| req.getD 5 0))]) ∧
    (∀ start q : Nat, read_bits_data ([] : List (Nat × Bool)) start q =
      List.replicate ((q + 7) / 8) 0) ∧
    read_bits_data [(65535, true)] 65535 2 = [1] := by
  refine ⟨process_sent_no_illegal_address, ?_, by decide, ?_, ?_,
    read_bits_data_empty, by decide⟩
  · intro st now req s hlen hbytes hfc hslave hcrc hq1 hq2
    have hsid : req.getD 0 0 < 256 := getD_lt_256 hbytes 0 (by omega)
    have hba : bytesOf ([req.getD 0 0, 0x03,
        ((req.getD 4 0) <<< 8 ||| req.getD 5 0) * 2] ++
        read_registers_data s.holding_registers
          ((req.getD 2 0) <<< 8 ||| req.getD 3 0)
          ((req.getD 4 0) <<< 8 ||| req.getD 5 0)) =
        some ([req.getD 0 0, 0x03,
        ((req.getD 4 0) <<< 8 ||| req.getD 5 0) * 2] ++
        read_registers_data s.holding_registers
          ((req.getD 2 0) <<< 8 ||| req.getD 3 0)
          ((req.getD 4 0) <<< 8 ||| req.getD 5 0)) := by
      apply bytesOf_all_lt
      intro b hb
      rcases List.mem_append.mp hb with hb | hb
      · simp only [List.mem_cons, List.not_mem_nil, or_false] at hb
        rcases hb with rfl | rfl | rfl <;> omega
      · exact read_registers_data_mem_lt _ _ _ b hb
    have hres : handle_read_holding_registers (req.getD 0 0) req s =
        ⟨some (frame_with_crc ([req.getD 0 0, 0x03,
          ((req.getD 4 0) <<< 8 ||| req.getD 5 0) * 2] ++
          read_registers_data s.holding_registers
            ((req.getD 2 0) <<< 8 ||| req.getD 3 0)
            ((req.getD 4 0) <<< 8 ||| req.getD 5 0))), s, []⟩ := by
      unfold handle_read_holding_registers
      rw [if_neg (by omega)]
      try dsimp only
      rw [if_neg (by omega)]
      try dsimp only
      rw [hba]
    have hdisp : dispatch_function (req.getD 1 0) (req.getD 0 0) req s =
        some ⟨some (frame_with_crc ([req.getD 0 0, 0x03,
          ((req.getD 4 0) <<< 8 ||| req.getD 5 0) * 2] ++
          read_registers_data s.holding_registers
            ((req.getD 2 0) <<< 8 ||| req.getD 3 0)
            ((req.getD 4 0) <<< 8 ||| req.getD 5 0))), s, []⟩ := by
      rw [hfc]
      show some (handle_read_holding_registers (req.getD 0 0) req s) = _
      rw [hres]
    rw [process_request_eq st now req s _ (by omega) hslave hcrc hdisp]
    try dsimp only
    rw [if_neg (by rw [frame_with_crc_length]; simp)]
    rfl
  · intro st now req s hlen hbytes hfc hslave hcrc hq1 hq2
    have hsid : req.getD 0 0 < 256 := getD_lt_256 hbytes 0 (by omega)
    have hba : bytesOf ([req.getD 0 0, 0x01,
        (((req.getD 4 0) <<< 8 ||| req.getD 5 0) + 7) / 8] ++
        read_bits_data s.coils
          ((req.getD 2 0) <<< 8 ||| req.getD 3 0)
          ((req.getD 4 0) <<< 8 ||| req.getD 5 0)) =
        some ([req.getD 0 0, 0x01,
        (((req.getD 4 0) <<< 8 ||| req.getD 5 0) + 7) / 8] ++
        read_bits_data s.coils
          ((req.getD 2 0) <<< 8 ||| req.getD 3 0)
          ((req.getD 4 0) <<< 8 ||| req.getD 5 0)) := by
      apply bytesOf_all_lt
      intro b hb
      rcases List.mem_append.mp hb with hb | hb
      · simp only [List.mem_cons, List.not_mem_nil, or_false] at hb
        rcases hb with rfl | rfl | rfl <;> omega
      · exact read_bits_data_mem_lt _ _ _ b hb
    have hres : handle_read_coils (req.getD 0 0) req s =
        ⟨some (frame_with_crc ([req.getD 0 0, 0x01,
          (((req.getD 4 0) <<< 8 ||| req.getD 5 0) + 7) / 8] ++
          read_bits_data s.coils
            ((req.getD 2 0) <<< 8 ||| req.getD 3 0)
            ((req.getD 4 0) <<< 8 ||| req.getD 5 0))), s, []⟩ := by
      unfold handle_read_coils
      rw [if_neg (by omega)]
      try dsimp only
      rw [if_neg (by omega)]
      try dsimp only
      rw [hba]
    have hdisp : dispatch_function (req.getD 1 0) (req.getD 0 0) req s =
        some ⟨some (frame_with_crc ([req.getD 0 0, 0x01,
          (((req.getD 4 0) <<< 8 ||| req.getD 5 0) + 7) / 8] ++
          read_bits_data s.coils
            ((req.getD 2 0) <<< 8 ||| req.getD 3 0)
            ((req.getD 4 0) <<< 8 ||| req.getD 5 0))), s, []⟩ := by
      rw [hfc]
      show some (handle_read_coils (req.getD 0 0) req s) = _
      rw [hres]
    rw [process_request_eq st now req s _ (by omega) hslave hcrc hdisp]
    try dsimp only
    rw [if_neg (by rw [frame_with_crc_length]; simp)]
    rfl
  · intro st now req s hlen hbytes hfc hslave hcrc hq1 hq2
    have hsid : req.getD 0 0 < 256 := getD_lt_256 hbytes 0 (by omega)
    have hba : bytesOf ([req.getD 0 0, 0x02,
        (((req.getD 4 0) <<< 8 ||| req.getD 5 0) + 7) / 8] ++
        read_bits_data s.discrete_inputs
          ((req.getD 2 0) <<< 8 ||| req.getD 3 0)
          ((req.getD 4 0) <<< 8 ||| req.getD 5 0)) =
        some ([req.getD 0 0, 0x02,
        (((req.getD 4 0) <<< 8 ||| req.getD 5 0) + 7) / 8] ++
        read_bits_data s.discrete_inputs
          ((req.getD 2 0) <<< 8 ||| req.getD 3 0)
          ((req.getD 4 0) <<< 8 ||| req.getD 5 0)) := by
      apply bytesOf_all_lt
      intro b hb
      rcases List.mem_append.mp hb with hb | hb
      · simp only [List.mem_cons, List.not_mem_nil, or_false] at hb
        rcases hb with rfl | rfl | rfl <;> omega
      · exact read_bits_data_mem_lt _ _ _ b hb
    have hres : handle_read_discrete_inputs (req.getD 0 0) req s =
        ⟨some (frame_with_crc ([req.getD 0 0, 0x02,
          (((req.getD 4 0) <<< 8 ||| req.getD 5 0) + 7) / 8] ++
          read_bits_data s.discrete_inputs
            ((req.getD 2 0) <<< 8 ||| req.getD 3 0)
            ((req.getD 4 0) <<< 8 ||| req.getD 5 0))), s, []⟩ := by
      unfold handle_read_discrete_inputs
      rw [if_neg (by omega)]
      try dsimp only
      rw [if_neg (by omega)]
      try dsimp only
      rw [hba]
    have hdisp : dispatch_function (req.getD 1 0) (req.getD 0 0) req s =
        some ⟨some (frame_with_crc ([req.getD 0 0, 0x02,
          (((req.getD 4 0) <<< 8 ||| req.getD 5 0) + 7) / 8] ++
          read_bits_data s.discrete_inputs
            ((req.getD 2 0) <<< 8 ||| req.getD 3 0)
            ((req.getD 4 0) <<< 8 ||| req.getD 5 0))), s, []⟩ := by
      rw [hfc]
      show some (handle_read_discrete_inputs (req.getD 0 0) req s) = _
      rw [hres]
    rw [process_request_eq st now req s _ (by omega) hslave hcrc hdisp]
    try dsimp only
    rw [if_neg (by rw [frame_with_crc_length]; simp)]
    rfl

/-- A read-holding request whose two-register range starts at the very top
of the 16-bit address space (start 0xFFFF, quantity 2). -/
def far_read_req : List Nat := frame_with_crc [1, 0x03, 0xFF, 0xFF, 0, 2]

/-- The same far-range read as a read-coils request. -/
def far_read_coils_req : List Nat := frame_with_crc [1, 0x01, 0xFF, 0xFF, 0, 2]

/-- The same far-range read as a read-discrete-inputs request. -/
def far_read_discrete_req : List Nat := frame_with_crc [1, 0x02, 0xFF, 0xFF, 0, 2]

/-- Witness for `no_illegal_data_address`: the far-range read requests
(`start = 0xFFFF`, quantity 2, covering the absent address 65536) against
`demo_state` for holding registers, coils and discrete inputs are all
answered normally, not rejected. -/
theorem no_illegal_data_address_witness :
    far_read_req.length = 8 ∧
    (∀ b ∈ far_read_req, b < 256) ∧
    far_read_req.getD 1 0 = 0x03 ∧
    dictLookup demo_state.slaves (far_read_req.getD 0 0) = some demo_slave ∧
    validate_crc far_read_req = true ∧
    1 ≤ (far_read_req.getD 4 0) <<< 8 ||| far_read_req.getD 5 0 ∧
    (far_read_req.getD 4 0) <<< 8 ||| far_read_req.getD 5 0 ≤ 125 ∧
    (process_request demo_state 0 far_read_req).sent =
      [frame_with_crc ([far_read_req.getD 0 0, 0x03,
        ((far_read_req.getD 4 0) <<< 8 ||| far_read_req.getD 5 0) * 2] ++
        read_registers_data demo_slave.holding_registers
          ((far_read_req.getD 2 0) <<< 8 ||| far_read_req.getD 3 0)
          ((far_read_req.getD 4 0) <<< 8 ||| far_read_req.getD 5 0))] ∧
    validate_crc far_read_coils_req = true ∧
    (process_request demo_state 0 far_read_coils_req).sent =
      [frame_with_crc ([far_read_coils_req.getD 0 0, 0x01,
        (((far_read_coils_req.getD 4 0) <<< 8 ||| far_read_coils_req.getD 5 0) + 7) / 8] ++
        read_bits_data demo_slave.coils
          ((far_read_coils_req.getD 2 0) <<< 8 ||| far_read_coils_req.getD 3 0)
          ((far_read_coils_req.getD 4 0) <<< 8 ||| far_read_coils_req.getD 5 0))] ∧
    validate_crc far_read_discrete_req = true ∧
    (process_request demo_state 0 far_read_discrete_req).sent =
      [frame_with_crc ([far_read_discrete_req.getD 0 0, 0x02,
        (((far_read_discrete_req.getD 4 0) <<< 8 ||| far_read_discrete_req.getD 5 0) + 7) / 8] ++
        read_bits_data demo_slave.discrete_inputs
          ((far_read_discrete_req.getD 2 0) <<< 8 ||| far_read_discrete_req.getD 3 0)
          ((far_read_discrete_req.getD 4 0) <<< 8 ||| far_read_discrete_req.getD 5 0))] :=
  ⟨by decide, by decide, by decide, by decide, by decide, by decide, by decide,
    no_illegal_data_address.2.1 demo_state 0 far_read_req demo_slave
      (by decide) (by decide) (by decide) (by decide) (by decide)
      (by decide) (by decide),
    by decide,
    no_illegal_data_address.2.2.2.1 demo_state 0 far_read_coils_req demo_slave
      (by decide) (by decide) (by decide) (by decide) (by decide)
      (by decide) (by decide),
    by decide,
    no_illegal_data_address.2.2.2.2.1 demo_state 0 far_read_discrete_req demo_slave
      (by decide) (by decide) (by decide) (by decide) (by decide)
      (by decide) (by decide)⟩
